import Mathlib

/-!
# Function-call and window-function transformation

A shallow embedding of `src/parser/transform/expression/transform_function.cpp`
(the DuckDB parser step that turns a grammar-level function call into a typed
expression node) together with theorems about it.

Conventions of the embedding.

* A nullable pointer `T *` is an `Option T`; a `unique_ptr<ParsedExpression>`
  is an `Option Expr`.
* A `PGList *` is an `Option (List (Option Node))`: the list pointer itself may
  be null and every cell carries a node pointer.
* A C++ function that can throw returns `Except ThrownError _`; statements are
  sequenced in source order, so the first thrown error is the one returned.
* Members of `Transformer` that live in other translation units
  (`TransformExpression`, `TransformExpressionList`, `TransformOrderBy`,
  `StringUtil::Lower`, the `window_clauses` map, the `FRAMEOPTION_*` masks, the
  `INVALID_SCHEMA`/`DEFAULT_SCHEMA` constants and the build mode of `D_ASSERT`)
  are fields of the `Transformer` record and are left arbitrary in every
  theorem.
-/

namespace duckdb

/-! ## Enumerations -/

/-- The members of `ExpressionType` that `transform_function.cpp` names. -/
inductive ExpressionType
  | INVALID
  | OPERATOR_COALESCE
  | WINDOW_AGGREGATE
  | WINDOW_RANK
  | WINDOW_RANK_DENSE
  | WINDOW_NTILE
  | WINDOW_PERCENT_RANK
  | WINDOW_CUME_DIST
  | WINDOW_ROW_NUMBER
  | WINDOW_FIRST_VALUE
  | WINDOW_LAST_VALUE
  | WINDOW_LEAD
  | WINDOW_LAG
  deriving DecidableEq, Repr

/-- The enumeration `WindowBoundary`; `INVALID` is the value of a boundary that
was never assigned. -/
inductive WindowBoundary
  | INVALID
  | UNBOUNDED_PRECEDING
  | UNBOUNDED_FOLLOWING
  | CURRENT_ROW_RANGE
  | CURRENT_ROW_ROWS
  | EXPR_PRECEDING
  | EXPR_FOLLOWING
  deriving DecidableEq, Repr

/-- What a C++ `throw` (or a failed `D_ASSERT` in a build that keeps
assertions) carries out of a function. `Other` stands for any exception class
raised by a collaborator that this file does not name. -/
inductive ThrownError
  | Exception (msg : String)
  | ParserException (msg : String)
  | AssertionFailure (condition : String)
  | Other (msg : String)
  deriving DecidableEq, Repr

/-! ## Raw syntax nodes (libpg_query) -/

/-- A `PGList *` of node pointers. -/
abbrev PGList (Node : Type) : Type := Option (List (Option Node))

/-- The fields of `PGWindowDef` read by this file. `frameOptions` is the bit
pattern of the C `int`. -/
structure PGWindowDef (Node : Type) where
  name : Option String
  refname : Option String
  partitionClause : PGList Node
  orderClause : PGList Node
  frameOptions : Nat
  startOffset : Option Node
  endOffset : Option Node

/-- The fields of `PGFuncCall` read by this file. `funcname` is the name path:
its first identifier and the identifiers after it (`name->head` is dereferenced
unconditionally, so the path is never empty). -/
structure PGFuncCall (Node : Type) where
  funcname : String × List String
  args : PGList Node
  agg_order : PGList Node
  agg_filter : Option Node
  agg_distinct : Bool
  over : Option (PGWindowDef Node)
  location : Int

/-- The enumeration `PGSQLValueFunctionOp`, with `unknown` for any integer
outside of the fifteen named codes. -/
inductive PGSQLValueFunctionOp
  | PG_SVFOP_CURRENT_DATE
  | PG_SVFOP_CURRENT_TIME
  | PG_SVFOP_CURRENT_TIME_N
  | PG_SVFOP_CURRENT_TIMESTAMP
  | PG_SVFOP_CURRENT_TIMESTAMP_N
  | PG_SVFOP_LOCALTIME
  | PG_SVFOP_LOCALTIME_N
  | PG_SVFOP_LOCALTIMESTAMP
  | PG_SVFOP_LOCALTIMESTAMP_N
  | PG_SVFOP_CURRENT_ROLE
  | PG_SVFOP_CURRENT_USER
  | PG_SVFOP_USER
  | PG_SVFOP_SESSION_USER
  | PG_SVFOP_CURRENT_CATALOG
  | PG_SVFOP_CURRENT_SCHEMA
  | unknown (code : Int)
  deriving DecidableEq, Repr

/-- The field of `PGSQLValueFunction` read by this file. -/
structure PGSQLValueFunction where
  op : PGSQLValueFunctionOp

/-! ## Expression nodes built by this file -/

/-- The fields of `FunctionExpression`. -/
structure FunctionExpression (Expr : Type) where
  schema : String
  function_name : String
  children : List (Option Expr)
  filter : Option Expr
  distinct : Bool
  query_location : Option Int

/-- The fields of `WindowExpression`; `end_` is the member `end`. -/
structure WindowExpression (Expr Order : Type) where
  type : ExpressionType
  schema : String
  function_name : String
  children : List (Option Expr)
  partitions : List (Option Expr)
  orders : List Order
  start : WindowBoundary
  end_ : WindowBoundary
  start_expr : Option Expr
  end_expr : Option Expr
  offset_expr : Option Expr
  default_expr : Option Expr

/-- One `CaseCheck`: a condition and the value chosen when it holds. -/
structure CaseCheck (Expr : Type) where
  when_expr : Option Expr
  then_expr : Option Expr

/-- The fields of `CaseExpression`. -/
structure CaseExpression (Expr : Type) where
  case_checks : List (CaseCheck Expr)
  else_expr : Option Expr

/-- The fields of `OperatorExpression`. -/
structure OperatorExpression (Expr : Type) where
  type : ExpressionType
  children : List (Option Expr)

/-- The four node classes that `TransformFuncCall` and
`TransformSQLValueFunction` hand back as a `unique_ptr<ParsedExpression>`.
`Expr` is the type of the sub-expressions produced by the sibling expression
transformer. -/
inductive ParsedExpression (Expr Order : Type)
  | Function (f : FunctionExpression Expr)
  | Window (w : WindowExpression Expr Order)
  | Case (c : CaseExpression Expr)
  | Operator (o : OperatorExpression Expr)

/-- Modelled from the spec: the constructor
`WindowExpression(type, schema, function_name)` is declared in another file;
the node it builds stores the kind tag, the schema and the function name, has
no children, partitions or orders, no offset expressions, and both boundaries
unset. -/
def WindowExpression.make {Expr Order : Type} (type : ExpressionType) (schema function_name : String) :
    WindowExpression Expr Order :=
  { type := type, schema := schema, function_name := function_name,
    children := [], partitions := [], orders := [],
    start := WindowBoundary.INVALID, end_ := WindowBoundary.INVALID,
    start_expr := none, end_expr := none, offset_expr := none, default_expr := none }

/-- Modelled from the spec: the constructor
`FunctionExpression(schema, function_name, children, filter, distinct)` is
declared in another file; the node it builds stores its five arguments, with
the filter absent and the distinct flag false when they are not passed, and
carries no source location until one is assigned. -/
def FunctionExpression.make {Expr : Type} (schema function_name : String)
    (children : List (Option Expr)) (filter : Option Expr) (distinct : Bool) :
    FunctionExpression Expr :=
  { schema := schema, function_name := function_name, children := children,
    filter := filter, distinct := distinct, query_location := none }

/-! ## The transformer and its collaborators -/

/-- The `FRAMEOPTION_*` masks tested by `TransformWindowFrame`; they are
defined in a libpg_query header. -/
structure FrameOptionMasks where
  FRAMEOPTION_RANGE : Nat
  FRAMEOPTION_ROWS : Nat
  FRAMEOPTION_START_UNBOUNDED_PRECEDING : Nat
  FRAMEOPTION_END_UNBOUNDED_PRECEDING : Nat
  FRAMEOPTION_START_UNBOUNDED_FOLLOWING : Nat
  FRAMEOPTION_END_UNBOUNDED_FOLLOWING : Nat
  FRAMEOPTION_START_CURRENT_ROW : Nat
  FRAMEOPTION_END_CURRENT_ROW : Nat
  FRAMEOPTION_START_VALUE_PRECEDING : Nat
  FRAMEOPTION_END_VALUE_PRECEDING : Nat
  FRAMEOPTION_START_VALUE_FOLLOWING : Nat
  FRAMEOPTION_END_VALUE_FOLLOWING : Nat

/-- Everything of the `Transformer` object, and of its build, that
`transform_function.cpp` uses without defining.

* `assertions`: whether `D_ASSERT` is compiled in; when it is, a false
  condition stops the transformation, otherwise the macro expands to nothing.
* `TransformExpression`: takes a node pointer, returns an expression pointer
  or throws.
* `TransformExpressionList` / `TransformOrderBy`: take a list pointer and
  append to an output vector; the result is the returned flag together with the
  appended elements.
* `window_clauses`: the `find` function of the named-window map; its values are
  non-null window definitions. -/
structure Transformer (Node Expr Order : Type) where
  assertions : Bool
  masks : FrameOptionMasks
  INVALID_SCHEMA : String
  DEFAULT_SCHEMA : String
  Lower : String → String
  TransformExpression : Option Node → Except ThrownError (Option Expr)
  TransformExpressionList : PGList Node → Except ThrownError (Bool × List (Option Expr))
  TransformOrderBy : PGList Node → Except ThrownError (Bool × List Order)
  window_clauses : String → Option (PGWindowDef Node)

/-- The macro `D_ASSERT(condition)`: in a build with assertions a false
condition aborts with the text of the condition; in a build without them it
does nothing. -/
def D_ASSERT (assertions : Bool) (condition : Bool) (text : String) : Except ThrownError Unit :=
  if assertions && !condition then Except.error (ThrownError.AssertionFailure text)
  else Except.ok ()

/-- The C test `frameOptions & MASK`, read as a condition. -/
def hasFrameOption (frameOptions mask : Nat) : Bool :=
  (frameOptions &&& mask) != 0

/-! ## `WindowToExpressionType` (lines 14-38) -/

/-- The static function `WindowToExpressionType`. -/
def WindowToExpressionType (fun_name : String) : ExpressionType :=
  if fun_name = "rank" then ExpressionType.WINDOW_RANK
  else if fun_name = "rank_dense" ∨ fun_name = "dense_rank" then ExpressionType.WINDOW_RANK_DENSE
  else if fun_name = "percent_rank" then ExpressionType.WINDOW_PERCENT_RANK
  else if fun_name = "row_number" then ExpressionType.WINDOW_ROW_NUMBER
  else if fun_name = "first_value" ∨ fun_name = "first" then ExpressionType.WINDOW_FIRST_VALUE
  else if fun_name = "last_value" ∨ fun_name = "last" then ExpressionType.WINDOW_LAST_VALUE
  else if fun_name = "cume_dist" then ExpressionType.WINDOW_CUME_DIST
  else if fun_name = "lead" then ExpressionType.WINDOW_LEAD
  else if fun_name = "lag" then ExpressionType.WINDOW_LAG
  else if fun_name = "ntile" then ExpressionType.WINDOW_NTILE
  else ExpressionType.WINDOW_AGGREGATE

/-! ## `TransformWindowDef` (lines 40-47) -/

/-- The method `Transformer::TransformWindowDef`: the partition list, then the
order list, are appended to the expression; the flags the two collaborators
return are not looked at. The two leading assertions (both pointers non-null)
hold by the types of the arguments. -/
def TransformWindowDef {Node Expr Order : Type} (T : Transformer Node Expr Order)
    (window_spec : PGWindowDef Node) (expr : WindowExpression Expr Order) :
    Except ThrownError (WindowExpression Expr Order) :=
  match T.TransformExpressionList window_spec.partitionClause with
  | Except.error e => Except.error e
  | Except.ok (_, parts) =>
    match T.TransformOrderBy window_spec.orderClause with
    | Except.error e => Except.error e
    | Except.ok (_, ords) =>
      Except.ok { expr with partitions := expr.partitions ++ parts, orders := expr.orders ++ ords }

/-! ## `TransformWindowFrame` (lines 49-102) -/

/-- Lines 63-77: the cascade that assigns `expr->start`; `current` is the value
the member holds before, kept when no branch is taken. -/
def decodeStart (m : FrameOptionMasks) (frameOptions : Nat) (current : WindowBoundary) : WindowBoundary :=
  if hasFrameOption frameOptions m.FRAMEOPTION_START_UNBOUNDED_PRECEDING then
    WindowBoundary.UNBOUNDED_PRECEDING
  else if hasFrameOption frameOptions m.FRAMEOPTION_START_UNBOUNDED_FOLLOWING then
    WindowBoundary.UNBOUNDED_FOLLOWING
  else if hasFrameOption frameOptions m.FRAMEOPTION_START_VALUE_PRECEDING then
    WindowBoundary.EXPR_PRECEDING
  else if hasFrameOption frameOptions m.FRAMEOPTION_START_VALUE_FOLLOWING then
    WindowBoundary.EXPR_FOLLOWING
  else if hasFrameOption frameOptions m.FRAMEOPTION_START_CURRENT_ROW &&
      hasFrameOption frameOptions m.FRAMEOPTION_RANGE then
    WindowBoundary.CURRENT_ROW_RANGE
  else if hasFrameOption frameOptions m.FRAMEOPTION_START_CURRENT_ROW &&
      hasFrameOption frameOptions m.FRAMEOPTION_ROWS then
    WindowBoundary.CURRENT_ROW_ROWS
  else current

/-- Lines 79-93: the cascade that assigns `expr->end`. -/
def decodeEnd (m : FrameOptionMasks) (frameOptions : Nat) (current : WindowBoundary) : WindowBoundary :=
  if hasFrameOption frameOptions m.FRAMEOPTION_END_UNBOUNDED_PRECEDING then
    WindowBoundary.UNBOUNDED_PRECEDING
  else if hasFrameOption frameOptions m.FRAMEOPTION_END_UNBOUNDED_FOLLOWING then
    WindowBoundary.UNBOUNDED_FOLLOWING
  else if hasFrameOption frameOptions m.FRAMEOPTION_END_VALUE_PRECEDING then
    WindowBoundary.EXPR_PRECEDING
  else if hasFrameOption frameOptions m.FRAMEOPTION_END_VALUE_FOLLOWING then
    WindowBoundary.EXPR_FOLLOWING
  else if hasFrameOption frameOptions m.FRAMEOPTION_END_CURRENT_ROW &&
      hasFrameOption frameOptions m.FRAMEOPTION_RANGE then
    WindowBoundary.CURRENT_ROW_RANGE
  else if hasFrameOption frameOptions m.FRAMEOPTION_END_CURRENT_ROW &&
      hasFrameOption frameOptions m.FRAMEOPTION_ROWS then
    WindowBoundary.CURRENT_ROW_ROWS
  else current

/-- Lines 57-58: the condition of the first `throw`. -/
def nonsensicalFrame (m : FrameOptionMasks) (frameOptions : Nat) : Bool :=
  hasFrameOption frameOptions m.FRAMEOPTION_END_UNBOUNDED_PRECEDING ||
    hasFrameOption frameOptions m.FRAMEOPTION_START_UNBOUNDED_FOLLOWING

/-- Lines 96-99: the condition of the second `throw`, with both disjunctions
written as in the source (each compares with `EXPR_PRECEDING` twice). -/
def missingBoundaryExpression {Expr Order : Type} (expr : WindowExpression Expr Order) : Bool :=
  ((expr.start == WindowBoundary.EXPR_PRECEDING || expr.start == WindowBoundary.EXPR_PRECEDING) &&
      expr.start_expr.isNone) ||
    ((expr.end_ == WindowBoundary.EXPR_PRECEDING || expr.end_ == WindowBoundary.EXPR_PRECEDING) &&
      expr.end_expr.isNone)

/-- The message of the first `throw` of `TransformWindowFrame`. -/
def nonsensicalFrameMessage : String :=
  "Window frames starting with unbounded following or ending in unbounded preceding make no sense"

/-- The method `Transformer::TransformWindowFrame`. The two leading assertions
(both pointers non-null) hold by the types of the arguments. -/
def TransformWindowFrame {Node Expr Order : Type} (T : Transformer Node Expr Order)
    (window_spec : PGWindowDef Node) (expr : WindowExpression Expr Order) :
    Except ThrownError (WindowExpression Expr Order) :=
  match T.TransformExpression window_spec.startOffset with
  | Except.error e => Except.error e
  | Except.ok start_expr =>
    match T.TransformExpression window_spec.endOffset with
    | Except.error e => Except.error e
    | Except.ok end_expr =>
      if nonsensicalFrame T.masks window_spec.frameOptions then
        Except.error (ThrownError.Exception nonsensicalFrameMessage)
      else
        let decoded : WindowExpression Expr Order :=
          { expr with
            start_expr := start_expr, end_expr := end_expr,
            start := decodeStart T.masks window_spec.frameOptions expr.start,
            end_ := decodeEnd T.masks window_spec.frameOptions expr.end_ }
        match D_ASSERT T.assertions
            (decoded.start != WindowBoundary.INVALID && decoded.end_ != WindowBoundary.INVALID)
            "expr->start != WindowBoundary::INVALID && expr->end != WindowBoundary::INVALID" with
        | Except.error e => Except.error e
        | Except.ok _ =>
          if missingBoundaryExpression decoded then
            Except.error (ThrownError.Exception "Failed to transform window boundary expression")
          else Except.ok decoded

/-! ## `TransformFuncCall` (lines 104-232) -/

/-- Lines 105-116: the schema and the function name read from the name path.
A path of length two gives (first, second); any other path gives
(`INVALID_SCHEMA`, first). -/
def qualifiedName {Node Expr Order : Type} (T : Transformer Node Expr Order)
    (root : PGFuncCall Node) : String × String :=
  if root.funcname.2.length + 1 = 2 then
    (root.funcname.1, root.funcname.2.headD "")
  else
    (T.INVALID_SCHEMA, root.funcname.1)

/-- Lines 150-153: a second argument becomes the offset expression. -/
def takeOffsetArgument {Expr Order : Type} (assertions : Bool) (win_fun_type : ExpressionType)
    (function_list : List (Option Expr)) (expr : WindowExpression Expr Order) :
    Except ThrownError (WindowExpression Expr Order) :=
  if 1 < function_list.length then
    match D_ASSERT assertions
        (win_fun_type == ExpressionType.WINDOW_LEAD || win_fun_type == ExpressionType.WINDOW_LAG)
        "win_fun_type == ExpressionType::WINDOW_LEAD || win_fun_type == ExpressionType::WINDOW_LAG" with
    | Except.error e => Except.error e
    | Except.ok _ => Except.ok { expr with offset_expr := function_list.getD 1 none }
  else Except.ok expr

/-- Lines 154-157: a third argument becomes the default expression. -/
def takeDefaultArgument {Expr Order : Type} (assertions : Bool) (win_fun_type : ExpressionType)
    (function_list : List (Option Expr)) (expr : WindowExpression Expr Order) :
    Except ThrownError (WindowExpression Expr Order) :=
  if 2 < function_list.length then
    match D_ASSERT assertions
        (win_fun_type == ExpressionType.WINDOW_LEAD || win_fun_type == ExpressionType.WINDOW_LAG)
        "win_fun_type == ExpressionType::WINDOW_LEAD || win_fun_type == ExpressionType::WINDOW_LAG" with
    | Except.error e => Except.error e
    | Except.ok _ => Except.ok { expr with default_expr := function_list.getD 2 none }
  else Except.ok expr

/-- Lines 142-159: how the transformed arguments are spread over the window
expression. -/
def distributeWindowArguments {Expr Order : Type} (assertions : Bool) (win_fun_type : ExpressionType)
    (function_list : List (Option Expr)) (expr : WindowExpression Expr Order) :
    Except ThrownError (WindowExpression Expr Order) :=
  if win_fun_type = ExpressionType.WINDOW_AGGREGATE then
    Except.ok { expr with children := expr.children ++ function_list }
  else
    let withChild : WindowExpression Expr Order :=
      if function_list.isEmpty then expr
      else { expr with children := expr.children ++ [function_list.getD 0 none] }
    match takeOffsetArgument assertions win_fun_type function_list withChild with
    | Except.error e => Except.error e
    | Except.ok withOffset =>
      match takeDefaultArgument assertions win_fun_type function_list withOffset with
      | Except.error e => Except.error e
      | Except.ok withDefault =>
        match D_ASSERT assertions (decide (function_list.length ≤ 3)) "function_list.size() <= 3" with
        | Except.error e => Except.error e
        | Except.ok _ => Except.ok withDefault

/-- Lines 136-160: the argument block of the window path. -/
def transformWindowArguments {Node Expr Order : Type} (T : Transformer Node Expr Order)
    (win_fun_type : ExpressionType) (args : PGList Node) (expr : WindowExpression Expr Order) :
    Except ThrownError (WindowExpression Expr Order) :=
  if args.isSome then
    match T.TransformExpressionList args with
    | Except.error e => Except.error e
    | Except.ok (res, function_list) =>
      if !res then
        Except.error (ThrownError.Exception "Failed to transform window function children")
      else distributeWindowArguments T.assertions win_fun_type function_list expr
  else Except.ok expr

/-- The text built by `ParserException("window \"%s\" does not exist", name)`. -/
def windowDoesNotExist (name : String) : ThrownError :=
  ThrownError.ParserException ("window \"" ++ name ++ "\" does not exist")

/-- Lines 163-168 and 172-177: `window_clauses.find` on the lowercased name.
The assertion that the entry found is non-null holds by the type of the
table. -/
def findWindowClause {Node Expr Order : Type} (T : Transformer Node Expr Order)
    (name : String) : Except ThrownError (PGWindowDef Node) :=
  match T.window_clauses (T.Lower name) with
  | none => Except.error (windowDoesNotExist name)
  | some definition => Except.ok definition

/-- Lines 161-169: the working specification `window_spec`. -/
def resolveWindowSpec {Node Expr Order : Type} (T : Transformer Node Expr Order)
    (over : PGWindowDef Node) : Except ThrownError (PGWindowDef Node) :=
  match over.name with
  | some name => findWindowClause T name
  | none => Except.ok over

/-- Lines 170-178: the specification `window_ref` that supplies partitioning
and ordering. -/
def resolveWindowRef {Node Expr Order : Type} (T : Transformer Node Expr Order)
    (window_spec : PGWindowDef Node) : Except ThrownError (PGWindowDef Node) :=
  match window_spec.refname with
  | some refname => findWindowClause T refname
  | none => Except.ok window_spec

/-- Lines 125-182: the body of `if (root->over)`. -/
def transformWindowCall {Node Expr Order : Type} (T : Transformer Node Expr Order)
    (root : PGFuncCall Node) (schema lowercase_name : String) (over : PGWindowDef Node) :
    Except ThrownError (ParsedExpression Expr Order) :=
  if root.agg_distinct then
    Except.error (ThrownError.ParserException "DISTINCT is not implemented for window functions!")
  else
    let win_fun_type := WindowToExpressionType lowercase_name
    if win_fun_type = ExpressionType.INVALID then
      Except.error (ThrownError.Exception "Unknown/unsupported window function")
    else
      match transformWindowArguments T win_fun_type root.args
          (WindowExpression.make win_fun_type schema lowercase_name) with
      | Except.error e => Except.error e
      | Except.ok withArguments =>
        match resolveWindowSpec T over with
        | Except.error e => Except.error e
        | Except.ok window_spec =>
          match resolveWindowRef T window_spec with
          | Except.error e => Except.error e
          | Except.ok window_ref =>
            match TransformWindowDef T window_ref withArguments with
            | Except.error e => Except.error e
            | Except.ok withDefinition =>
              match TransformWindowFrame T window_spec withDefinition with
              | Except.error e => Except.error e
              | Except.ok expr => Except.ok (ParsedExpression.Window expr)

/-- Lines 188-191: every argument goes through `TransformExpression`, first to
last. -/
def transformChildren {Node Expr Order : Type} (T : Transformer Node Expr Order) :
    List (Option Node) → Except ThrownError (List (Option Expr))
  | [] => Except.ok []
  | node :: rest =>
    match T.TransformExpression node with
    | Except.error e => Except.error e
    | Except.ok child_expr =>
      match transformChildren T rest with
      | Except.error e => Except.error e
      | Except.ok children => Except.ok (child_expr :: children)

/-- Lines 193-196: the optional FILTER expression. -/
def transformFilter {Node Expr Order : Type} (T : Transformer Node Expr Order)
    (agg_filter : Option Node) : Except ThrownError (Option Expr) :=
  if agg_filter.isSome then T.TransformExpression agg_filter else Except.ok none

/-- Lines 199-201: a call of `count` without arguments is renamed. -/
def renameCountStar {Expr : Type} (lowercase_name : String) (children : List (Option Expr)) : String :=
  if lowercase_name = "count" ∧ children.isEmpty then "count_star" else lowercase_name

/-- Lines 203-231: the rewrites of `if` and `ifnull`, and the generic function
expression. The names handled here come from C strings, so passing the name
through `c_str()` gives the same name back. -/
def buildCall {Node Expr Order : Type} (root : PGFuncCall Node) (schema lowercase_name : String)
    (children : List (Option Expr)) (filter_expr : Option Expr) :
    Except ThrownError (ParsedExpression Expr Order) :=
  if lowercase_name = "if" then
    if children.length ≠ 3 then
      Except.error (ThrownError.ParserException "Wrong number of arguments to IF.")
    else
      Except.ok (ParsedExpression.Case
        { case_checks := [{ when_expr := children.getD 0 none, then_expr := children.getD 1 none }],
          else_expr := children.getD 2 none })
  else if lowercase_name = "ifnull" then
    if children.length ≠ 2 then
      Except.error (ThrownError.ParserException "Wrong number of arguments to IFNULL.")
    else
      Except.ok (ParsedExpression.Operator
        { type := ExpressionType.OPERATOR_COALESCE,
          children := [children.getD 0 none, children.getD 1 none] })
  else
    Except.ok (ParsedExpression.Function
      { FunctionExpression.make schema lowercase_name children filter_expr root.agg_distinct with
        query_location := some root.location })

/-- Lines 185-231: the path taken when there is no OVER clause. -/
def transformPlainCall {Node Expr Order : Type} (T : Transformer Node Expr Order)
    (root : PGFuncCall Node) (schema lowercase_name : String) :
    Except ThrownError (ParsedExpression Expr Order) :=
  match transformChildren T (root.args.getD []) with
  | Except.error e => Except.error e
  | Except.ok children =>
    match transformFilter T root.agg_filter with
    | Except.error e => Except.error e
    | Except.ok filter_expr =>
      buildCall root schema (renameCountStar lowercase_name children) children filter_expr

/-- The method `Transformer::TransformFuncCall`. -/
def TransformFuncCall {Node Expr Order : Type} (T : Transformer Node Expr Order)
    (root : PGFuncCall Node) : Except ThrownError (ParsedExpression Expr Order) :=
  let schema := (qualifiedName T root).1
  let function_name := (qualifiedName T root).2
  let lowercase_name := T.Lower function_name
  if root.agg_order.isSome then
    Except.error (ThrownError.ParserException "ORDER BY is not implemented for aggregates")
  else
    match root.over with
    | some over => transformWindowCall T root schema lowercase_name over
    | none => transformPlainCall T root schema lowercase_name

/-! ## `SQLValueOpToString` and `TransformSQLValueFunction` (lines 234-278) -/

/-- The static function `SQLValueOpToString`. -/
def SQLValueOpToString : PGSQLValueFunctionOp → Except ThrownError String
  | PGSQLValueFunctionOp.PG_SVFOP_CURRENT_DATE => Except.ok "current_date"
  | PGSQLValueFunctionOp.PG_SVFOP_CURRENT_TIME => Except.ok "current_time"
  | PGSQLValueFunctionOp.PG_SVFOP_CURRENT_TIME_N => Except.ok "current_time_n"
  | PGSQLValueFunctionOp.PG_SVFOP_CURRENT_TIMESTAMP => Except.ok "current_timestamp"
  | PGSQLValueFunctionOp.PG_SVFOP_CURRENT_TIMESTAMP_N => Except.ok "current_timestamp_n"
  | PGSQLValueFunctionOp.PG_SVFOP_LOCALTIME => Except.ok "current_localtime"
  | PGSQLValueFunctionOp.PG_SVFOP_LOCALTIME_N => Except.ok "current_localtime_n"
  | PGSQLValueFunctionOp.PG_SVFOP_LOCALTIMESTAMP => Except.ok "current_localtimestamp"
  | PGSQLValueFunctionOp.PG_SVFOP_LOCALTIMESTAMP_N => Except.ok "current_localtimestamp_n"
  | PGSQLValueFunctionOp.PG_SVFOP_CURRENT_ROLE => Except.ok "current_role"
  | PGSQLValueFunctionOp.PG_SVFOP_CURRENT_USER => Except.ok "current_user"
  | PGSQLValueFunctionOp.PG_SVFOP_USER => Except.ok "user"
  | PGSQLValueFunctionOp.PG_SVFOP_SESSION_USER => Except.ok "session_user"
  | PGSQLValueFunctionOp.PG_SVFOP_CURRENT_CATALOG => Except.ok "current_catalog"
  | PGSQLValueFunctionOp.PG_SVFOP_CURRENT_SCHEMA => Except.ok "current_schema"
  | PGSQLValueFunctionOp.unknown code =>
    Except.error (ThrownError.Exception
      ("Could not find named SQL value function specification " ++ toString code))

/-- The method `Transformer::TransformSQLValueFunction`; a null node gives a
null result. -/
def TransformSQLValueFunction {Node Expr Order : Type} (T : Transformer Node Expr Order)
    (node : Option PGSQLValueFunction) : Except ThrownError (Option (ParsedExpression Expr Order)) :=
  match node with
  | none => Except.ok none
  | some n =>
    match SQLValueOpToString n.op with
    | Except.error e => Except.error e
    | Except.ok fname =>
      Except.ok (some (ParsedExpression.Function
        (FunctionExpression.make T.DEFAULT_SCHEMA fname [] none false)))

/-! ## The frame decoder, as the specification words it -/

/-- The decoding rules of the specification for one side of the frame, in the
order given there: the first rule whose bit is set decides, and no rule may
apply. -/
def firstMatchingRule (unboundedPreceding unboundedFollowing valuePreceding valueFollowing
    currentRow range rows : Bool) : Option WindowBoundary :=
  if unboundedPreceding then some WindowBoundary.UNBOUNDED_PRECEDING
  else if unboundedFollowing then some WindowBoundary.UNBOUNDED_FOLLOWING
  else if valuePreceding then some WindowBoundary.EXPR_PRECEDING
  else if valueFollowing then some WindowBoundary.EXPR_FOLLOWING
  else if currentRow && range then some WindowBoundary.CURRENT_ROW_RANGE
  else if currentRow && rows then some WindowBoundary.CURRENT_ROW_ROWS
  else none

/-- The rules applied to the START bits of a bit set. -/
def specStartBoundary (m : FrameOptionMasks) (frameOptions : Nat) : Option WindowBoundary :=
  firstMatchingRule
    (hasFrameOption frameOptions m.FRAMEOPTION_START_UNBOUNDED_PRECEDING)
    (hasFrameOption frameOptions m.FRAMEOPTION_START_UNBOUNDED_FOLLOWING)
    (hasFrameOption frameOptions m.FRAMEOPTION_START_VALUE_PRECEDING)
    (hasFrameOption frameOptions m.FRAMEOPTION_START_VALUE_FOLLOWING)
    (hasFrameOption frameOptions m.FRAMEOPTION_START_CURRENT_ROW)
    (hasFrameOption frameOptions m.FRAMEOPTION_RANGE)
    (hasFrameOption frameOptions m.FRAMEOPTION_ROWS)

/-- The rules applied to the END bits of a bit set. -/
def specEndBoundary (m : FrameOptionMasks) (frameOptions : Nat) : Option WindowBoundary :=
  firstMatchingRule
    (hasFrameOption frameOptions m.FRAMEOPTION_END_UNBOUNDED_PRECEDING)
    (hasFrameOption frameOptions m.FRAMEOPTION_END_UNBOUNDED_FOLLOWING)
    (hasFrameOption frameOptions m.FRAMEOPTION_END_VALUE_PRECEDING)
    (hasFrameOption frameOptions m.FRAMEOPTION_END_VALUE_FOLLOWING)
    (hasFrameOption frameOptions m.FRAMEOPTION_END_CURRENT_ROW)
    (hasFrameOption frameOptions m.FRAMEOPTION_RANGE)
    (hasFrameOption frameOptions m.FRAMEOPTION_ROWS)

/-- The expression `TransformWindowFrame` returns when nothing is thrown. -/
def decodedFrame {Node Expr Order : Type} (T : Transformer Node Expr Order)
    (window_spec : PGWindowDef Node) (expr : WindowExpression Expr Order)
    (start_expr end_expr : Option Expr) : WindowExpression Expr Order :=
  { expr with
    start_expr := start_expr, end_expr := end_expr,
    start := decodeStart T.masks window_spec.frameOptions expr.start,
    end_ := decodeEnd T.masks window_spec.frameOptions expr.end_ }

/-! ## Concrete instances used to evaluate the definitions -/

/-- The mask values of the PostgreSQL grammar header that libpg_query ships:
one distinct bit per frame option. -/
def pgMasks : FrameOptionMasks :=
  { FRAMEOPTION_RANGE := 0x00002,
    FRAMEOPTION_ROWS := 0x00004,
    FRAMEOPTION_START_UNBOUNDED_PRECEDING := 0x00010,
    FRAMEOPTION_END_UNBOUNDED_PRECEDING := 0x00020,
    FRAMEOPTION_START_UNBOUNDED_FOLLOWING := 0x00040,
    FRAMEOPTION_END_UNBOUNDED_FOLLOWING := 0x00080,
    FRAMEOPTION_START_CURRENT_ROW := 0x00100,
    FRAMEOPTION_END_CURRENT_ROW := 0x00200,
    FRAMEOPTION_START_VALUE_PRECEDING := 0x00400,
    FRAMEOPTION_END_VALUE_PRECEDING := 0x00800,
    FRAMEOPTION_START_VALUE_FOLLOWING := 0x01000,
    FRAMEOPTION_END_VALUE_FOLLOWING := 0x02000 }

/-- Lowercasing of the ASCII letters of a string, character by character. -/
def asciiLower (s : String) : String :=
  String.mk (s.data.map Char.toLower)

/-- A list transformer for the sample transformer: a null list reports failure
and appends nothing, any other list is passed through cell by cell and reports
success. -/
def sampleList {α : Type} (list : Option (List α)) : Except ThrownError (Bool × List α) :=
  match list with
  | none => Except.ok (false, [])
  | some cells => Except.ok (true, cells)

/-- A transformer over nodes that are plain labels: every sub-expression
transforms to its own label, a null pointer to a null pointer, except that the
label `"bad"` makes `TransformExpression` throw. -/
def sampleTransformer (assertions : Bool) (window_clauses : String → Option (PGWindowDef String)) :
    Transformer String String (Option String) :=
  { assertions := assertions,
    masks := pgMasks,
    INVALID_SCHEMA := "",
    DEFAULT_SCHEMA := "main",
    Lower := asciiLower,
    TransformExpression := fun node =>
      if node = some "bad" then Except.error (ThrownError.Other "not implemented") else Except.ok node,
    TransformExpressionList := sampleList,
    TransformOrderBy := sampleList,
    window_clauses := window_clauses }

/-- A window specification without name, reference name, partitioning or
ordering, with the given frame options and offsets. -/
def frameOnly (frameOptions : Nat) (startOffset endOffset : Option String) : PGWindowDef String :=
  { name := none, refname := none, partitionClause := none, orderClause := none,
    frameOptions := frameOptions, startOffset := startOffset, endOffset := endOffset }

/-- The empty named-window table. -/
def noWindows : String → Option (PGWindowDef String) := fun _ => none

/-- A freshly constructed window expression for `sum`. -/
def freshWindow : WindowExpression String (Option String) :=
  WindowExpression.make ExpressionType.WINDOW_AGGREGATE "" "sum"

/-- Window `w_a` of the sample table: it refers to `w_b`, has its own partition
and order clauses, and the frame `ROWS BETWEEN 1 PRECEDING AND CURRENT ROW`. -/
def sampleWindowA : PGWindowDef String :=
  { name := none, refname := some "w_b",
    partitionClause := some [some "pa"], orderClause := some [some "oa"],
    frameOptions := 0x60d, startOffset := some "1", endOffset := none }

/-- Window `w_b` of the sample table: it refers on to `w_c`, and has the frame
`RANGE BETWEEN UNBOUNDED PRECEDING AND UNBOUNDED FOLLOWING`. -/
def sampleWindowB : PGWindowDef String :=
  { name := none, refname := some "w_c",
    partitionClause := some [some "pb"], orderClause := some [some "ob"],
    frameOptions := 0x9b, startOffset := none, endOffset := none }

/-- Window `w_c` of the sample table. -/
def sampleWindowC : PGWindowDef String :=
  { name := none, refname := none,
    partitionClause := some [some "pc"], orderClause := some [some "oc"],
    frameOptions := 0x212, startOffset := none, endOffset := none }

/-- The sample named-window table: `w_a`, `w_b` and `w_c`. -/
def sampleWindows (key : String) : Option (PGWindowDef String) :=
  if key = "w_a" then some sampleWindowA
  else if key = "w_b" then some sampleWindowB
  else if key = "w_c" then some sampleWindowC
  else none

/-- An OVER specification that only names a window. -/
def overNamed (name : String) : PGWindowDef String :=
  { name := some name, refname := none, partitionClause := none, orderClause := none,
    frameOptions := 0x212, startOffset := none, endOffset := none }

/-- A call `funcname(args) OVER over`, without DISTINCT, FILTER or aggregate
ORDER BY. -/
def windowCall (funcname : String) (args : PGList String) (over : PGWindowDef String) :
    PGFuncCall String :=
  { funcname := (funcname, []), args := args, agg_order := none, agg_filter := none,
    agg_distinct := false, over := some over, location := 7 }

/-- The window expression of `SUM(x) OVER W_A` against the sample table. -/
def sumOverA : WindowExpression String (Option String) :=
  { type := ExpressionType.WINDOW_AGGREGATE, schema := "", function_name := "sum",
    children := [some "x"], partitions := [some "pb"], orders := [some "ob"],
    start := WindowBoundary.EXPR_PRECEDING, end_ := WindowBoundary.CURRENT_ROW_ROWS,
    start_expr := some "1", end_expr := none, offset_expr := none, default_expr := none }

/-- An OVER specification in parentheses that refers to a window by name. -/
def overReferring (refname : String) : PGWindowDef String :=
  { name := none, refname := some refname, partitionClause := none, orderClause := none,
    frameOptions := 0x212, startOffset := none, endOffset := none }

/-- The window expression of `COUNT() OVER ()` with the default frame. -/
def countOver : WindowExpression String (Option String) :=
  { type := ExpressionType.WINDOW_AGGREGATE, schema := "", function_name := "count",
    children := [], partitions := [], orders := [],
    start := WindowBoundary.UNBOUNDED_PRECEDING, end_ := WindowBoundary.CURRENT_ROW_RANGE,
    start_expr := none, end_expr := none, offset_expr := none, default_expr := none }

/-- A call `funcname(args)` without OVER clause, DISTINCT, FILTER or aggregate
ORDER BY. -/
def plainCall (funcname : String) (args : PGList String) : PGFuncCall String :=
  { funcname := (funcname, []), args := args, agg_order := none, agg_filter := none,
    agg_distinct := false, over := none, location := 7 }

/-- A call `s.Round(x, d)` with DISTINCT and a FILTER. -/
def qualifiedCall : PGFuncCall String :=
  { funcname := ("s", ["Round"]), args := some [some "x", some "d"], agg_order := none,
    agg_filter := some "keep", agg_distinct := true, over := none, location := 42 }


/-- A call `Missing.NoSuch(bad) FILTER (bad) OVER Missing Nowhere` with an
aggregate ORDER BY and the given DISTINCT flag: every later step of the
transformation would fail on it. -/
def hopelessCall (agg_order : PGList String) (agg_distinct : Bool) : PGFuncCall String :=
  { funcname := ("Missing", ["NoSuch"]), args := some [some "bad"], agg_order := agg_order,
    agg_filter := some "bad", agg_distinct := agg_distinct,
    over := some { name := some "Missing", refname := some "Nowhere", partitionClause := none,
                   orderClause := none, frameOptions := 0x60, startOffset := some "bad",
                   endOffset := none },
    location := 3 }


/-! ## The window-kind table, as the specification words it -/

/-- The fixed table of the specification: every table name with its kind. -/
def windowKindTable : List (String × ExpressionType) :=
  [("rank", ExpressionType.WINDOW_RANK),
   ("rank_dense", ExpressionType.WINDOW_RANK_DENSE),
   ("dense_rank", ExpressionType.WINDOW_RANK_DENSE),
   ("percent_rank", ExpressionType.WINDOW_PERCENT_RANK),
   ("row_number", ExpressionType.WINDOW_ROW_NUMBER),
   ("first_value", ExpressionType.WINDOW_FIRST_VALUE),
   ("first", ExpressionType.WINDOW_FIRST_VALUE),
   ("last_value", ExpressionType.WINDOW_LAST_VALUE),
   ("last", ExpressionType.WINDOW_LAST_VALUE),
   ("cume_dist", ExpressionType.WINDOW_CUME_DIST),
   ("lead", ExpressionType.WINDOW_LEAD),
   ("lag", ExpressionType.WINDOW_LAG),
   ("ntile", ExpressionType.WINDOW_NTILE)]

/-- The names of the table. -/
def windowTableNames : List String :=
  windowKindTable.map Prod.fst

/-- The names of the table grouped by alias: names in one group are aliases of
each other, names in different groups are not. -/
def windowAliasGroups : List (List String) :=
  [["rank"], ["rank_dense", "dense_rank"], ["percent_rank"], ["row_number"],
   ["first_value", "first"], ["last_value", "last"], ["cume_dist"], ["lead"], ["lag"],
   ["ntile"]]

/-- Whether two names are aliases of each other: some group holds both. -/
def areAliases (a b : String) : Bool :=
  windowAliasGroups.any (fun group => group.contains a && group.contains b)

/-- The message of the `throw` behind the `ExpressionType::INVALID` test of
lines 130-132. -/
def unknownWindowFunction : ThrownError :=
  ThrownError.Exception "Unknown/unsupported window function"


/-- The window expression of `LEAD(x, n, d) OVER w_c` against the sample
table. -/
def leadOverC : WindowExpression String (Option String) :=
  { type := ExpressionType.WINDOW_LEAD, schema := "", function_name := "lead",
    children := [some "x"], partitions := [some "pc"], orders := [some "oc"],
    start := WindowBoundary.UNBOUNDED_PRECEDING, end_ := WindowBoundary.CURRENT_ROW_RANGE,
    start_expr := none, end_expr := none, offset_expr := some "n", default_expr := some "d" }

/-- The window expression of `SUM(x, y) OVER w_c` against the sample table. -/
def sumTwoOverC : WindowExpression String (Option String) :=
  { type := ExpressionType.WINDOW_AGGREGATE, schema := "", function_name := "sum",
    children := [some "x", some "y"], partitions := [some "pc"], orders := [some "oc"],
    start := WindowBoundary.UNBOUNDED_PRECEDING, end_ := WindowBoundary.CURRENT_ROW_RANGE,
    start_expr := none, end_expr := none, offset_expr := none, default_expr := none }

/-- The window expression of `RANK(x, y) OVER w_c` against the sample table in
a build without assertions. -/
def rankTwoOverC : WindowExpression String (Option String) :=
  { type := ExpressionType.WINDOW_RANK, schema := "", function_name := "rank",
    children := [some "x"], partitions := [some "pc"], orders := [some "oc"],
    start := WindowBoundary.UNBOUNDED_PRECEDING, end_ := WindowBoundary.CURRENT_ROW_RANGE,
    start_expr := none, end_expr := none, offset_expr := some "y", default_expr := none }

/-- The window expression of `ROW_NUMBER(x, y, z, u) OVER w_c` against the
sample table in a build without assertions. -/
def rowNumberFourOverC : WindowExpression String (Option String) :=
  { type := ExpressionType.WINDOW_ROW_NUMBER, schema := "", function_name := "row_number",
    children := [some "x"], partitions := [some "pc"], orders := [some "oc"],
    start := WindowBoundary.UNBOUNDED_PRECEDING, end_ := WindowBoundary.CURRENT_ROW_RANGE,
    start_expr := none, end_expr := none, offset_expr := some "y", default_expr := some "z" }


/-- An OVER specification that names `w_a` and carries clauses, a frame,
offsets and a reference name of its own. -/
def overNamedBusy : PGWindowDef String :=
  { name := some "W_A", refname := some "Nowhere",
    partitionClause := some [some "bad"], orderClause := some [some "own"],
    frameOptions := 0x60, startOffset := some "bad", endOffset := some "9" }

/-! ## Theorems: the frame decoder -/

/-- The start cascade of the source agrees with the rules of the
specification wherever a rule applies. -/
theorem decodeStart_of_specStartBoundary (m : FrameOptionMasks) (frameOptions : Nat)
    (current b : WindowBoundary) (h : specStartBoundary m frameOptions = some b) :
    decodeStart m frameOptions current = b := by
  unfold specStartBoundary firstMatchingRule at h
  unfold decodeStart
  split_ifs at h ⊢ <;> simp_all

/-- The end cascade of the source agrees with the rules of the specification
wherever a rule applies. -/
theorem decodeEnd_of_specEndBoundary (m : FrameOptionMasks) (frameOptions : Nat)
    (current b : WindowBoundary) (h : specEndBoundary m frameOptions = some b) :
    decodeEnd m frameOptions current = b := by
  unfold specEndBoundary firstMatchingRule at h
  unfold decodeEnd
  split_ifs at h ⊢ <;> simp_all

/-- Once both offsets have been transformed, `TransformWindowFrame` is a chain
of three checks on the decoded expression. -/
theorem TransformWindowFrame_eq {Node Expr Order : Type} (T : Transformer Node Expr Order)
    (window_spec : PGWindowDef Node) (expr : WindowExpression Expr Order)
    (s e : Option Expr)
    (hs : T.TransformExpression window_spec.startOffset = Except.ok s)
    (he : T.TransformExpression window_spec.endOffset = Except.ok e) :
    TransformWindowFrame T window_spec expr =
      if nonsensicalFrame T.masks window_spec.frameOptions = true then
        Except.error (ThrownError.Exception nonsensicalFrameMessage)
      else if T.assertions = true ∧
          ¬ ((decodedFrame T window_spec expr s e).start ≠ WindowBoundary.INVALID ∧
            (decodedFrame T window_spec expr s e).end_ ≠ WindowBoundary.INVALID) then
        Except.error (ThrownError.AssertionFailure
          "expr->start != WindowBoundary::INVALID && expr->end != WindowBoundary::INVALID")
      else if missingBoundaryExpression (decodedFrame T window_spec expr s e) = true then
        Except.error (ThrownError.Exception "Failed to transform window boundary expression")
      else Except.ok (decodedFrame T window_spec expr s e) := by
  unfold TransformWindowFrame
  simp only [hs, he]
  by_cases hn : nonsensicalFrame T.masks window_spec.frameOptions = true
  · simp [hn]
  · simp only [hn, if_false]
    by_cases ha : T.assertions = true ∧
        ¬ ((decodedFrame T window_spec expr s e).start ≠ WindowBoundary.INVALID ∧
          (decodedFrame T window_spec expr s e).end_ ≠ WindowBoundary.INVALID)
    · have hd : D_ASSERT T.assertions
          (decodeStart T.masks window_spec.frameOptions expr.start != WindowBoundary.INVALID &&
            decodeEnd T.masks window_spec.frameOptions expr.end_ != WindowBoundary.INVALID)
          "expr->start != WindowBoundary::INVALID && expr->end != WindowBoundary::INVALID" =
          Except.error (ThrownError.AssertionFailure
            "expr->start != WindowBoundary::INVALID && expr->end != WindowBoundary::INVALID") := by
        obtain ⟨ha1, ha2⟩ := ha
        simp only [decodedFrame] at ha2
        unfold D_ASSERT
        rw [if_pos]
        simp only [ha1, Bool.true_and, Bool.not_eq_true', Bool.and_eq_false_imp, bne_iff_ne]
        simpa using ha2
      simp only [hd, if_pos ha]
    · have hd : D_ASSERT T.assertions
          (decodeStart T.masks window_spec.frameOptions expr.start != WindowBoundary.INVALID &&
            decodeEnd T.masks window_spec.frameOptions expr.end_ != WindowBoundary.INVALID)
          "expr->start != WindowBoundary::INVALID && expr->end != WindowBoundary::INVALID" =
          Except.ok () := by
        simp only [decodedFrame] at ha
        unfold D_ASSERT
        rw [if_neg]
        intro hc
        apply ha
        simp only [Bool.and_eq_true, Bool.not_eq_true', Bool.and_eq_false_imp, bne_iff_ne] at hc
        refine ⟨hc.1, ?_⟩
        simpa using hc.2
      simp only [hd, if_neg ha]
      rfl

/-- What a successful run of `TransformWindowFrame` returns: the incoming
expression with the two transformed offsets and the two decoded boundaries,
after the three checks have passed. -/
theorem TransformWindowFrame_ok_form {Node Expr Order : Type} (T : Transformer Node Expr Order)
    (window_spec : PGWindowDef Node) (expr result : WindowExpression Expr Order)
    (h : TransformWindowFrame T window_spec expr = Except.ok result) :
    ∃ s e, T.TransformExpression window_spec.startOffset = Except.ok s ∧
      T.TransformExpression window_spec.endOffset = Except.ok e ∧
      result = decodedFrame T window_spec expr s e ∧
      nonsensicalFrame T.masks window_spec.frameOptions = false ∧
      (T.assertions = true →
        result.start ≠ WindowBoundary.INVALID ∧ result.end_ ≠ WindowBoundary.INVALID) ∧
      missingBoundaryExpression result = false := by
  cases hs : T.TransformExpression window_spec.startOffset with
  | error err => simp [TransformWindowFrame, hs] at h
  | ok s =>
    cases he : T.TransformExpression window_spec.endOffset with
    | error err => simp [TransformWindowFrame, hs, he] at h
    | ok e =>
      rw [TransformWindowFrame_eq T window_spec expr s e hs he] at h
      split_ifs at h with hn ha hm
      have h2 := Except.ok.inj h
      subst h2
      refine ⟨s, e, rfl, rfl, rfl, by simpa using hn, ?_, by simpa using hm⟩
      intro hass
      by_contra hc
      exact ha ⟨hass, hc⟩

/-- C1: whenever the frame-option bit set has the END_UNBOUNDED_PRECEDING bit or
the START_UNBOUNDED_FOLLOWING bit, `TransformWindowFrame` fails, whatever the
other bits, the offsets and the incoming expression are; and if both offsets
transform, the failure is the "make no sense" exception. -/
theorem TransformWindowFrame_rejects_nonsensical_frame {Node Expr Order : Type}
    (T : Transformer Node Expr Order) (window_spec : PGWindowDef Node)
    (expr : WindowExpression Expr Order)
    (h : hasFrameOption window_spec.frameOptions T.masks.FRAMEOPTION_END_UNBOUNDED_PRECEDING = true ∨
      hasFrameOption window_spec.frameOptions T.masks.FRAMEOPTION_START_UNBOUNDED_FOLLOWING = true) :
    (∃ err, TransformWindowFrame T window_spec expr = Except.error err) ∧
    ∀ s e, T.TransformExpression window_spec.startOffset = Except.ok s →
      T.TransformExpression window_spec.endOffset = Except.ok e →
      TransformWindowFrame T window_spec expr =
        Except.error (ThrownError.Exception nonsensicalFrameMessage) := by
  have hn : nonsensicalFrame T.masks window_spec.frameOptions = true := by
    unfold nonsensicalFrame
    rcases h with h | h <;> simp [h]
  constructor
  · unfold TransformWindowFrame
    cases hs : T.TransformExpression window_spec.startOffset with
    | error e => exact ⟨e, rfl⟩
    | ok s =>
      cases he : T.TransformExpression window_spec.endOffset with
      | error e => exact ⟨e, rfl⟩
      | ok e => exact ⟨ThrownError.Exception nonsensicalFrameMessage, by simp [hn]⟩
  · intro s e hs he
    unfold TransformWindowFrame
    simp [hs, he, hn]

/-- Witness for C1: a ROWS frame whose end is unbounded preceding, with a start
offset present, is rejected. -/
theorem TransformWindowFrame_rejects_nonsensical_frame_witness :
    (hasFrameOption (frameOnly 0x42d (some "1") none).frameOptions
        (sampleTransformer true noWindows).masks.FRAMEOPTION_END_UNBOUNDED_PRECEDING = true ∨
      hasFrameOption (frameOnly 0x42d (some "1") none).frameOptions
        (sampleTransformer true noWindows).masks.FRAMEOPTION_START_UNBOUNDED_FOLLOWING = true) ∧
    TransformWindowFrame (sampleTransformer true noWindows) (frameOnly 0x42d (some "1") none)
        freshWindow = Except.error (ThrownError.Exception nonsensicalFrameMessage) :=
  ⟨Or.inl (by decide),
    (TransformWindowFrame_rejects_nonsensical_frame (sampleTransformer true noWindows)
      (frameOnly 0x42d (some "1") none) freshWindow (Or.inl (by decide))).2
      (some "1") none rfl rfl⟩

/-- C2: on every successful run of `TransformWindowFrame` the start boundary
is the one the first matching rule gives on the START bits (unbounded
preceding, unbounded following, value preceding, value following, current row
with RANGE, current row with ROWS, in this order) and the end boundary is the
one the same rules give on the END bits; and a bit set with start unbounded
preceding and end unbounded following, and neither rejected bit, succeeds with
(UNBOUNDED_PRECEDING, UNBOUNDED_FOLLOWING) when both offsets are absent (a null
offset node being transformed to a null expression). -/
theorem TransformWindowFrame_first_matching_rule {Node Expr Order : Type}
    (T : Transformer Node Expr Order) (window_spec : PGWindowDef Node)
    (expr : WindowExpression Expr Order) :
    (∀ result, TransformWindowFrame T window_spec expr = Except.ok result →
      (∀ b, specStartBoundary T.masks window_spec.frameOptions = some b → result.start = b) ∧
      (∀ b, specEndBoundary T.masks window_spec.frameOptions = some b → result.end_ = b)) ∧
    (hasFrameOption window_spec.frameOptions T.masks.FRAMEOPTION_START_UNBOUNDED_PRECEDING = true →
      hasFrameOption window_spec.frameOptions T.masks.FRAMEOPTION_END_UNBOUNDED_FOLLOWING = true →
      hasFrameOption window_spec.frameOptions T.masks.FRAMEOPTION_END_UNBOUNDED_PRECEDING = false →
      hasFrameOption window_spec.frameOptions T.masks.FRAMEOPTION_START_UNBOUNDED_FOLLOWING = false →
      window_spec.startOffset = none → window_spec.endOffset = none →
      T.TransformExpression none = Except.ok none →
      TransformWindowFrame T window_spec expr = Except.ok
        { expr with
          start := WindowBoundary.UNBOUNDED_PRECEDING, end_ := WindowBoundary.UNBOUNDED_FOLLOWING,
          start_expr := none, end_expr := none }) := by
  constructor
  · intro result h
    obtain ⟨s, e, _, _, hr, _⟩ := TransformWindowFrame_ok_form T window_spec expr result h
    constructor
    · intro b hb
      rw [hr]
      exact decodeStart_of_specStartBoundary T.masks window_spec.frameOptions expr.start b hb
    · intro b hb
      rw [hr]
      exact decodeEnd_of_specEndBoundary T.masks window_spec.frameOptions expr.end_ b hb
  · intro h1 h2 h3 h4 hs he hnone
    unfold TransformWindowFrame
    simp [hs, he, hnone, nonsensicalFrame, decodeStart, decodeEnd, h1, h2, h3, h4, D_ASSERT,
      missingBoundaryExpression]

/-- Witness for C2: `RANGE BETWEEN UNBOUNDED PRECEDING AND UNBOUNDED FOLLOWING`
without offsets decodes to (UNBOUNDED_PRECEDING, UNBOUNDED_FOLLOWING). -/
theorem TransformWindowFrame_first_matching_rule_witness :
    ∃ result, TransformWindowFrame (sampleTransformer true noWindows) (frameOnly 0x9b none none)
        freshWindow = Except.ok result ∧
      result.start = WindowBoundary.UNBOUNDED_PRECEDING ∧
      result.end_ = WindowBoundary.UNBOUNDED_FOLLOWING :=
  have ok := (TransformWindowFrame_first_matching_rule (sampleTransformer true noWindows)
    (frameOnly 0x9b none none) freshWindow).2 (by decide) (by decide) (by decide) (by decide)
    rfl rfl rfl
  have rules := (TransformWindowFrame_first_matching_rule (sampleTransformer true noWindows)
    (frameOnly 0x9b none none) freshWindow).1 _ ok
  ⟨_, ok, rules.1 _ (by decide), rules.2 _ (by decide)⟩

/-- The part of the offset check that the source does perform: a boundary
decoded as EXPR_PRECEDING whose offset expression is null makes
`TransformWindowFrame` fail. -/
theorem TransformWindowFrame_fails_of_value_preceding_without_offset {Node Expr Order : Type}
    (T : Transformer Node Expr Order) (window_spec : PGWindowDef Node)
    (expr : WindowExpression Expr Order)
    (h : (decodeStart T.masks window_spec.frameOptions expr.start = WindowBoundary.EXPR_PRECEDING ∧
        T.TransformExpression window_spec.startOffset = Except.ok none) ∨
      (decodeEnd T.masks window_spec.frameOptions expr.end_ = WindowBoundary.EXPR_PRECEDING ∧
        T.TransformExpression window_spec.endOffset = Except.ok none)) :
    ∃ err, TransformWindowFrame T window_spec expr = Except.error err := by
  cases hr : TransformWindowFrame T window_spec expr with
  | error err => exact ⟨err, rfl⟩
  | ok result =>
    exfalso
    obtain ⟨s, e, hs, he, hform, _, _, hm⟩ :=
      TransformWindowFrame_ok_form T window_spec expr result hr
    rw [hform] at hm
    rcases h with ⟨hd, hn⟩ | ⟨hd, hn⟩
    · rw [hs] at hn
      have hn2 := Except.ok.inj hn
      simp [missingBoundaryExpression, decodedFrame, hd, hn2] at hm
    · rw [he] at hn
      have hn2 := Except.ok.inj hn
      simp [missingBoundaryExpression, decodedFrame, hd, hn2] at hm

/-- C3 (the source does not do this): two frames that pass the first check and
lack the offset their EXPR_FOLLOWING boundary needs are accepted, with and
without assertions. The first is `ROWS BETWEEN _ FOLLOWING AND UNBOUNDED
FOLLOWING` without a start offset, the second `ROWS BETWEEN CURRENT ROW AND _
FOLLOWING` without an end offset. -/
theorem TransformWindowFrame_accepts_value_following_without_offset :
    (∀ assertions : Bool,
      TransformWindowFrame (sampleTransformer assertions noWindows) (frameOnly 0x108d none none)
          freshWindow = Except.ok
        { freshWindow with
          start := WindowBoundary.EXPR_FOLLOWING, end_ := WindowBoundary.UNBOUNDED_FOLLOWING,
          start_expr := none, end_expr := none }) ∧
    (∀ assertions : Bool,
      TransformWindowFrame (sampleTransformer assertions noWindows) (frameOnly 0x210d none none)
          freshWindow = Except.ok
        { freshWindow with
          start := WindowBoundary.CURRENT_ROW_ROWS, end_ := WindowBoundary.EXPR_FOLLOWING,
          start_expr := none, end_expr := none }) ∧
    nonsensicalFrame pgMasks 0x108d = false ∧ nonsensicalFrame pgMasks 0x210d = false := by
  refine ⟨?_, ?_, by decide, by decide⟩
  · intro assertions
    cases assertions <;> rfl
  · intro assertions
    cases assertions <;> rfl

/-- With assertions compiled in, a successful run of `TransformWindowFrame`
leaves neither boundary at `INVALID`. -/
theorem TransformWindowFrame_boundaries_set_of_assertions {Node Expr Order : Type}
    (T : Transformer Node Expr Order) (window_spec : PGWindowDef Node)
    (expr result : WindowExpression Expr Order) (ha : T.assertions = true)
    (h : TransformWindowFrame T window_spec expr = Except.ok result) :
    result.start ≠ WindowBoundary.INVALID ∧ result.end_ ≠ WindowBoundary.INVALID := by
  obtain ⟨_, _, _, _, _, _, hb, _⟩ := TransformWindowFrame_ok_form T window_spec expr result h
  exact hb ha

/-- C4 (the source does not guarantee this): in a build without assertions the
empty bit set, and the bit set with only the two current-row bits, are accepted
with both boundaries left at `INVALID`; in a build with assertions the same
inputs stop at the assertion. -/
theorem TransformWindowFrame_leaves_boundaries_invalid :
    TransformWindowFrame (sampleTransformer false noWindows) (frameOnly 0 none none) freshWindow
      = Except.ok freshWindow ∧
    TransformWindowFrame (sampleTransformer false noWindows) (frameOnly 0x300 none none) freshWindow
      = Except.ok freshWindow ∧
    freshWindow.start = WindowBoundary.INVALID ∧ freshWindow.end_ = WindowBoundary.INVALID ∧
    TransformWindowFrame (sampleTransformer true noWindows) (frameOnly 0 none none) freshWindow
      = Except.error (ThrownError.AssertionFailure
        "expr->start != WindowBoundary::INVALID && expr->end != WindowBoundary::INVALID") :=
  ⟨rfl, rfl, rfl, rfl, rfl⟩

/-! ## Theorems: `TransformFuncCall`, shared lemmas -/

/-- With an OVER clause and no aggregate ORDER BY, `TransformFuncCall` is the
window path. -/
theorem TransformFuncCall_of_over {Node Expr Order : Type} (T : Transformer Node Expr Order)
    (root : PGFuncCall Node) (over : PGWindowDef Node)
    (horder : root.agg_order = none) (hover : root.over = some over) :
    TransformFuncCall T root =
      transformWindowCall T root (qualifiedName T root).1 (T.Lower (qualifiedName T root).2) over := by
  simp [TransformFuncCall, horder, hover]

/-- Without OVER clause and aggregate ORDER BY, `TransformFuncCall` is the
non-window path. -/
theorem TransformFuncCall_of_no_over {Node Expr Order : Type} (T : Transformer Node Expr Order)
    (root : PGFuncCall Node) (horder : root.agg_order = none) (hover : root.over = none) :
    TransformFuncCall T root =
      transformPlainCall T root (qualifiedName T root).1 (T.Lower (qualifiedName T root).2) := by
  simp [TransformFuncCall, horder, hover]

/-- The argument loop succeeds with `children` exactly when every argument
transforms, in order, to the child at the same position. -/
theorem transformChildren_ok_iff {Node Expr Order : Type} (T : Transformer Node Expr Order)
    (nodes : List (Option Node)) (children : List (Option Expr)) :
    transformChildren T nodes = Except.ok children ↔
      List.Forall₂ (fun node child => T.TransformExpression node = Except.ok child) nodes children := by
  induction nodes generalizing children with
  | nil =>
    cases children with
    | nil => simp [transformChildren]
    | cons c cs => simp [transformChildren]
  | cons node rest ih =>
    unfold transformChildren
    cases hn : T.TransformExpression node with
    | error err =>
      simp only
      constructor
      · intro h
        exact absurd h (by simp)
      · intro h
        cases h with
        | cons h1 _ => rw [hn] at h1; exact absurd h1 (by simp)
    | ok child =>
      simp only
      cases hr : transformChildren T rest with
      | error err =>
        simp only
        constructor
        · intro h
          exact absurd h (by simp)
        · intro h
          cases h with
          | cons _ h2 =>
            have := (ih _).2 h2
            rw [hr] at this
            exact absurd this (by simp)
      | ok cs =>
        simp only
        constructor
        · intro h
          have h2 := Except.ok.inj h
          subst h2
          exact List.Forall₂.cons hn ((ih cs).1 hr)
        · intro h
          cases h with
          | cons h1 h2 =>
            rw [hn] at h1
            have e1 := Except.ok.inj h1
            have e2 := (ih _).2 h2
            rw [hr] at e2
            have e3 := Except.ok.inj e2
            subst e1
            subst e3
            rfl

/-- The optional FILTER: absent gives a null filter, present gives its
transform. -/
theorem transformFilter_eq {Node Expr Order : Type} (T : Transformer Node Expr Order)
    (agg_filter : Option Node) (filter_expr : Option Expr)
    (hnone : agg_filter = none → filter_expr = none)
    (hsome : ∀ node, agg_filter = some node →
      T.TransformExpression (some node) = Except.ok filter_expr) :
    transformFilter T agg_filter = Except.ok filter_expr := by
  cases agg_filter with
  | none => simp [transformFilter, hnone rfl]
  | some node => simp [transformFilter, hsome node rfl]

/-- The non-window path once the arguments and the filter have transformed. -/
theorem transformPlainCall_eq {Node Expr Order : Type} (T : Transformer Node Expr Order)
    (root : PGFuncCall Node) (schema lowercase_name : String)
    (children : List (Option Expr)) (filter_expr : Option Expr)
    (hargs : List.Forall₂ (fun node child => T.TransformExpression node = Except.ok child)
      (root.args.getD []) children)
    (hnone : root.agg_filter = none → filter_expr = none)
    (hsome : ∀ node, root.agg_filter = some node →
      T.TransformExpression (some node) = Except.ok filter_expr) :
    transformPlainCall T root schema lowercase_name =
      buildCall root schema (renameCountStar lowercase_name children) children filter_expr := by
  unfold transformPlainCall
  rw [(transformChildren_ok_iff T _ children).2 hargs,
    transformFilter_eq T root.agg_filter filter_expr hnone hsome]

/-! ## Theorems: the window path -/

/-- Taking the offset argument only writes the offset expression. -/
theorem takeOffsetArgument_ok_form {Expr Order : Type} (assertions : Bool)
    (win_fun_type : ExpressionType) (function_list : List (Option Expr))
    (expr result : WindowExpression Expr Order)
    (h : takeOffsetArgument assertions win_fun_type function_list expr = Except.ok result) :
    result = { expr with offset_expr := result.offset_expr } := by
  unfold takeOffsetArgument at h
  by_cases hlen : 1 < function_list.length
  · simp only [hlen, if_true] at h
    cases hd : D_ASSERT assertions
        (win_fun_type == ExpressionType.WINDOW_LEAD || win_fun_type == ExpressionType.WINDOW_LAG)
        "win_fun_type == ExpressionType::WINDOW_LEAD || win_fun_type == ExpressionType::WINDOW_LAG" with
    | error err => simp [hd] at h
    | ok u =>
      simp only [hd] at h
      have h2 := Except.ok.inj h
      subst h2
      rfl
  · simp only [hlen, if_false] at h
    have h2 := Except.ok.inj h
    subst h2
    rfl

/-- Taking the default argument only writes the default expression. -/
theorem takeDefaultArgument_ok_form {Expr Order : Type} (assertions : Bool)
    (win_fun_type : ExpressionType) (function_list : List (Option Expr))
    (expr result : WindowExpression Expr Order)
    (h : takeDefaultArgument assertions win_fun_type function_list expr = Except.ok result) :
    result = { expr with default_expr := result.default_expr } := by
  unfold takeDefaultArgument at h
  by_cases hlen : 2 < function_list.length
  · simp only [hlen, if_true] at h
    cases hd : D_ASSERT assertions
        (win_fun_type == ExpressionType.WINDOW_LEAD || win_fun_type == ExpressionType.WINDOW_LAG)
        "win_fun_type == ExpressionType::WINDOW_LEAD || win_fun_type == ExpressionType::WINDOW_LAG" with
    | error err => simp [hd] at h
    | ok u =>
      simp only [hd] at h
      have h2 := Except.ok.inj h
      subst h2
      rfl
  · simp only [hlen, if_false] at h
    have h2 := Except.ok.inj h
    subst h2
    rfl

/-- The argument distribution only writes the children, the offset expression
and the default expression of the window expression. -/
theorem distributeWindowArguments_ok_form {Expr Order : Type} (assertions : Bool)
    (win_fun_type : ExpressionType) (function_list : List (Option Expr))
    (expr result : WindowExpression Expr Order)
    (h : distributeWindowArguments assertions win_fun_type function_list expr = Except.ok result) :
    result = { expr with
      children := result.children, offset_expr := result.offset_expr,
      default_expr := result.default_expr } := by
  unfold distributeWindowArguments at h
  by_cases hk : win_fun_type = ExpressionType.WINDOW_AGGREGATE
  · simp only [hk, if_true] at h
    have h2 := Except.ok.inj h
    subst h2
    rfl
  · simp only [hk, if_false] at h
    generalize hw : (if function_list.isEmpty = true then expr
      else { expr with children := expr.children ++ [function_list.getD 0 none] }) = withChild at h
    have ew : withChild = { expr with children := withChild.children } := by
      rw [← hw]
      cases function_list.isEmpty with
      | true => rfl
      | false => rfl
    cases hoff : takeOffsetArgument assertions win_fun_type function_list withChild with
    | error err => simp [hoff] at h
    | ok withOffset =>
      simp only [hoff] at h
      cases hdef : takeDefaultArgument assertions win_fun_type function_list withOffset with
      | error err => simp [hdef] at h
      | ok withDefault =>
        simp only [hdef] at h
        cases hd : D_ASSERT assertions (decide (function_list.length ≤ 3))
            "function_list.size() <= 3" with
        | error err => simp [hd] at h
        | ok u =>
          simp only [hd] at h
          have h2 := Except.ok.inj h
          subst h2
          have e1 := takeOffsetArgument_ok_form _ _ _ _ _ hoff
          have e2 := takeDefaultArgument_ok_form _ _ _ _ _ hdef
          rw [e2, e1, ew]

/-- The argument block of the window path only writes the children, the offset
expression and the default expression of the window expression. -/
theorem transformWindowArguments_ok_form {Node Expr Order : Type} (T : Transformer Node Expr Order)
    (win_fun_type : ExpressionType) (args : PGList Node)
    (expr result : WindowExpression Expr Order)
    (h : transformWindowArguments T win_fun_type args expr = Except.ok result) :
    result = { expr with
      children := result.children, offset_expr := result.offset_expr,
      default_expr := result.default_expr } := by
  unfold transformWindowArguments at h
  by_cases hsome : args.isSome = true
  · simp only [hsome, if_true] at h
    cases hl : T.TransformExpressionList args with
    | error err => simp [hl] at h
    | ok pair =>
      obtain ⟨res, function_list⟩ := pair
      simp only [hl] at h
      cases res with
      | false => simp at h
      | true =>
        simp only [Bool.not_true, Bool.false_eq_true, if_false] at h
        exact distributeWindowArguments_ok_form _ _ _ _ _ h
  · simp only [hsome, if_false] at h
    have h2 := Except.ok.inj h
    subst h2
    rfl

/-- In a build without assertions the argument block succeeds as soon as the
argument list is null or `TransformExpressionList` reports success. -/
theorem transformWindowArguments_ok_of_no_assertions {Node Expr Order : Type}
    (T : Transformer Node Expr Order) (win_fun_type : ExpressionType) (args : PGList Node)
    (expr : WindowExpression Expr Order) (ha : T.assertions = false)
    (hargs : args = none ∨ ∃ function_list, T.TransformExpressionList args = Except.ok (true, function_list)) :
    ∃ result, transformWindowArguments T win_fun_type args expr = Except.ok result := by
  unfold transformWindowArguments
  split_ifs with hsome
  · rcases hargs with hnone | ⟨function_list, hlist⟩
    · simp [hnone] at hsome
    · simp only [hlist, Bool.not_true, Bool.false_eq_true, if_false]
      unfold distributeWindowArguments takeOffsetArgument takeDefaultArgument D_ASSERT
      simp only [ha, Bool.false_and, Bool.false_eq_true, if_false]
      split_ifs <;> exact ⟨_, rfl⟩
  · exact ⟨expr, rfl⟩

/-- What a successful run of `TransformWindowDef` returns. -/
theorem TransformWindowDef_ok_form {Node Expr Order : Type} (T : Transformer Node Expr Order)
    (window_spec : PGWindowDef Node) (expr result : WindowExpression Expr Order)
    (h : TransformWindowDef T window_spec expr = Except.ok result) :
    ∃ partFlag parts orderFlag ords,
      T.TransformExpressionList window_spec.partitionClause = Except.ok (partFlag, parts) ∧
      T.TransformOrderBy window_spec.orderClause = Except.ok (orderFlag, ords) ∧
      result = { expr with partitions := expr.partitions ++ parts, orders := expr.orders ++ ords } := by
  unfold TransformWindowDef at h
  split at h
  · exact absurd h (by simp)
  · rename_i partFlag parts hp
    split at h
    · exact absurd h (by simp)
    · rename_i orderFlag ords ho
      exact ⟨partFlag, parts, orderFlag, ords, hp, ho, (Except.ok.inj h).symm⟩

/-- The steps behind a successful window call, in source order. -/
theorem transformWindowCall_ok_form {Node Expr Order : Type} (T : Transformer Node Expr Order)
    (root : PGFuncCall Node) (schema lowercase_name : String) (over : PGWindowDef Node)
    (result : ParsedExpression Expr Order)
    (h : transformWindowCall T root schema lowercase_name over = Except.ok result) :
    root.agg_distinct = false ∧
    ∃ withArguments window_spec window_ref withDefinition expr,
      transformWindowArguments T (WindowToExpressionType lowercase_name) root.args
        (WindowExpression.make (WindowToExpressionType lowercase_name) schema lowercase_name) =
          Except.ok withArguments ∧
      resolveWindowSpec T over = Except.ok window_spec ∧
      resolveWindowRef T window_spec = Except.ok window_ref ∧
      TransformWindowDef T window_ref withArguments = Except.ok withDefinition ∧
      TransformWindowFrame T window_spec withDefinition = Except.ok expr ∧
      result = ParsedExpression.Window expr := by
  unfold transformWindowCall at h
  cases hd : root.agg_distinct with
  | true => simp [hd] at h
  | false =>
    refine ⟨rfl, ?_⟩
    simp only [hd, Bool.false_eq_true, if_false] at h
    by_cases hk : WindowToExpressionType lowercase_name = ExpressionType.INVALID
    · simp [hk] at h
    · simp only [hk, if_false] at h
      cases ha : transformWindowArguments T (WindowToExpressionType lowercase_name) root.args
          (WindowExpression.make (WindowToExpressionType lowercase_name) schema lowercase_name) with
      | error err => simp [ha] at h
      | ok withArguments =>
        simp only [ha] at h
        cases hs : resolveWindowSpec T over with
        | error err => simp [hs] at h
        | ok window_spec =>
          simp only [hs] at h
          cases hr : resolveWindowRef T window_spec with
          | error err => simp [hr] at h
          | ok window_ref =>
            simp only [hr] at h
            cases hdef : TransformWindowDef T window_ref withArguments with
            | error err => simp [hdef] at h
            | ok withDefinition =>
              simp only [hdef] at h
              cases hf : TransformWindowFrame T window_spec withDefinition with
              | error err => simp [hf] at h
              | ok expr =>
                simp only [hf] at h
                exact ⟨withArguments, window_spec, window_ref, withDefinition, expr, rfl, rfl, hr,
                  hdef, hf, (Except.ok.inj h).symm⟩

/-- The classifier never returns `ExpressionType::INVALID`. -/
theorem WindowToExpressionType_ne_INVALID (fun_name : String) :
    WindowToExpressionType fun_name ≠ ExpressionType.INVALID := by
  unfold WindowToExpressionType
  split_ifs <;> decide

/-- A call with an aggregate ORDER BY never succeeds. -/
theorem agg_order_eq_none_of_ok {Node Expr Order : Type} (T : Transformer Node Expr Order)
    (root : PGFuncCall Node) (result : ParsedExpression Expr Order)
    (h : TransformFuncCall T root = Except.ok result) : root.agg_order = none := by
  cases ho : root.agg_order with
  | none => rfl
  | some order => simp [TransformFuncCall, ho] at h

/-- C5: when the OVER specification names a declared window A whose definition
carries the reference name of a declared window B, the window expression that
is returned has the transforms of B's partition and order clauses as its
partition-by and order-by lists, and its boundaries and boundary offsets are
decoded from A's frame options and offsets; B's own reference name is not
followed. -/
theorem TransformFuncCall_named_window_reference {Node Expr Order : Type}
    (T : Transformer Node Expr Order) (root : PGFuncCall Node)
    (over A B : PGWindowDef Node) (a b : String) (result : ParsedExpression Expr Order)
    (hover : root.over = some over) (hname : over.name = some a)
    (hA : T.window_clauses (T.Lower a) = some A)
    (hrefname : A.refname = some b)
    (hB : T.window_clauses (T.Lower b) = some B)
    (h : TransformFuncCall T root = Except.ok result) :
    ∃ w, result = ParsedExpression.Window w ∧
      (∃ flag, T.TransformExpressionList B.partitionClause = Except.ok (flag, w.partitions)) ∧
      (∃ flag, T.TransformOrderBy B.orderClause = Except.ok (flag, w.orders)) ∧
      w.start = decodeStart T.masks A.frameOptions WindowBoundary.INVALID ∧
      w.end_ = decodeEnd T.masks A.frameOptions WindowBoundary.INVALID ∧
      T.TransformExpression A.startOffset = Except.ok w.start_expr ∧
      T.TransformExpression A.endOffset = Except.ok w.end_expr := by
  have horder := agg_order_eq_none_of_ok T root result h
  rw [TransformFuncCall_of_over T root over horder hover] at h
  obtain ⟨_, withArguments, window_spec, window_ref, withDefinition, expr, ha, hs, hr, hdef, hf,
    hres⟩ := transformWindowCall_ok_form T root _ _ over result h
  have eA : window_spec = A := by
    simp only [resolveWindowSpec, hname, findWindowClause, hA] at hs
    exact (Except.ok.inj hs).symm
  subst eA
  have eB : window_ref = B := by
    simp only [resolveWindowRef, hrefname, findWindowClause, hB] at hr
    exact (Except.ok.inj hr).symm
  subst eB
  have ea := transformWindowArguments_ok_form T _ _ _ _ ha
  obtain ⟨partFlag, parts, orderFlag, ords, hp, ho, ed⟩ :=
    TransformWindowDef_ok_form T window_ref withArguments withDefinition hdef
  obtain ⟨s, e, hse, hee, ef, _⟩ := TransformWindowFrame_ok_form T window_spec withDefinition expr hf
  have hparts : withDefinition.partitions = parts := by
    rw [ed, ea]
    simp [WindowExpression.make]
  have hords : withDefinition.orders = ords := by
    rw [ed, ea]
    simp [WindowExpression.make]
  have hstart : withDefinition.start = WindowBoundary.INVALID := by
    rw [ed, ea]
    rfl
  have hend : withDefinition.end_ = WindowBoundary.INVALID := by
    rw [ed, ea]
    rfl
  refine ⟨expr, hres, ⟨partFlag, ?_⟩, ⟨orderFlag, ?_⟩, ?_, ?_, ?_, ?_⟩
  · rw [hp, ef]
    simp [decodedFrame, hparts]
  · rw [ho, ef]
    simp [decodedFrame, hords]
  · rw [ef]
    simp [decodedFrame, hstart]
  · rw [ef]
    simp [decodedFrame, hend]
  · rw [hse, ef]
    simp [decodedFrame]
  · rw [hee, ef]
    simp [decodedFrame]

/-- Witness for C5: `SUM(x) OVER W_A` takes partitioning and ordering from
`w_b` and the frame from `w_a`. -/
theorem TransformFuncCall_named_window_reference_witness :
    TransformFuncCall (sampleTransformer true sampleWindows)
        (windowCall "SUM" (some [some "x"]) (overNamed "W_A")) =
      Except.ok (ParsedExpression.Window sumOverA) ∧
    ∃ w, ParsedExpression.Window sumOverA = ParsedExpression.Window w ∧
      (∃ flag, sampleList sampleWindowB.partitionClause = Except.ok (flag, w.partitions)) ∧
      (∃ flag, sampleList sampleWindowB.orderClause = Except.ok (flag, w.orders)) ∧
      w.start = decodeStart pgMasks sampleWindowA.frameOptions WindowBoundary.INVALID ∧
      w.end_ = decodeEnd pgMasks sampleWindowA.frameOptions WindowBoundary.INVALID ∧
      (sampleTransformer true sampleWindows).TransformExpression sampleWindowA.startOffset =
        Except.ok w.start_expr ∧
      (sampleTransformer true sampleWindows).TransformExpression sampleWindowA.endOffset =
        Except.ok w.end_expr :=
  ⟨rfl, TransformFuncCall_named_window_reference (sampleTransformer true sampleWindows)
    (windowCall "SUM" (some [some "x"]) (overNamed "W_A")) (overNamed "W_A")
    sampleWindowA sampleWindowB "W_A" "w_b" (ParsedExpression.Window sumOverA)
    rfl rfl rfl rfl rfl rfl⟩

/-- An assertion whose condition holds whenever assertions are compiled in
lets the transformation go on. -/
theorem D_ASSERT_ok_of_imp (assertions condition : Bool) (text : String)
    (h : assertions = true → condition = true) :
    D_ASSERT assertions condition text = Except.ok () := by
  unfold D_ASSERT
  cases assertions with
  | false => rfl
  | true => simp [h rfl]

/-- The argument block of the window path goes through when the argument list
is null, or `TransformExpressionList` reports success and, in a build with
assertions, the number of arguments fits the kind: any number for
WINDOW_AGGREGATE, at most three for WINDOW_LEAD and WINDOW_LAG, at most one for
the other kinds. -/
theorem transformWindowArguments_ok_of_counts {Node Expr Order : Type}
    (T : Transformer Node Expr Order) (win_fun_type : ExpressionType) (args : PGList Node)
    (expr : WindowExpression Expr Order)
    (hargs : args = none ∨ ∃ function_list,
      T.TransformExpressionList args = Except.ok (true, function_list) ∧
      (T.assertions = true →
        win_fun_type = ExpressionType.WINDOW_AGGREGATE ∨ function_list.length ≤ 1 ∨
        ((win_fun_type = ExpressionType.WINDOW_LEAD ∨ win_fun_type = ExpressionType.WINDOW_LAG) ∧
          function_list.length ≤ 3))) :
    ∃ result, transformWindowArguments T win_fun_type args expr = Except.ok result := by
  unfold transformWindowArguments
  by_cases hsome : args.isSome = true
  · rcases hargs with hnone | ⟨function_list, hlist, hcount⟩
    · simp [hnone] at hsome
    · simp only [hsome, if_true, hlist, Bool.not_true, Bool.false_eq_true, if_false]
      unfold distributeWindowArguments
      by_cases hk : win_fun_type = ExpressionType.WINDOW_AGGREGATE
      · simp only [hk, if_true]
        exact ⟨_, rfl⟩
      · simp only [hk, if_false]
        have hkind : 1 < function_list.length →
            D_ASSERT T.assertions
              (win_fun_type == ExpressionType.WINDOW_LEAD ||
                win_fun_type == ExpressionType.WINDOW_LAG)
              "win_fun_type == ExpressionType::WINDOW_LEAD || win_fun_type == ExpressionType::WINDOW_LAG" =
              Except.ok () := by
          intro hlen
          apply D_ASSERT_ok_of_imp
          intro ha
          rcases hcount ha with h1 | h1 | ⟨h1, _⟩
          · exact absurd h1 hk
          · omega
          · rcases h1 with h1 | h1 <;> simp [h1]
        have hmax : D_ASSERT T.assertions (decide (function_list.length ≤ 3))
            "function_list.size() <= 3" = Except.ok () := by
          apply D_ASSERT_ok_of_imp
          intro ha
          rcases hcount ha with h1 | h1 | ⟨_, h1⟩
          · exact absurd h1 hk
          · simp only [decide_eq_true_eq]
            omega
          · simpa using h1
        unfold takeOffsetArgument takeDefaultArgument
        by_cases h1 : 1 < function_list.length
        · by_cases h2 : 2 < function_list.length
          · simp only [h1, h2, if_true, hkind h1, hmax]
            exact ⟨_, rfl⟩
          · simp only [h1, h2, if_true, if_false, hkind h1, hmax]
            exact ⟨_, rfl⟩
        · have h2 : ¬ 2 < function_list.length := by omega
          simp only [h1, h2, if_false, hmax]
          exact ⟨_, rfl⟩
  · exact ⟨expr, by simp only [hsome, Bool.false_eq_true, if_false]⟩

/-- C6 as stated fails: `RANK(x, y) OVER Missing` has an OVER clause, no
aggregate ORDER BY and no DISTINCT, its arguments transform, and the lowercased
OVER name is not a key of the table; in a build with assertions the call stops
at the assertion of line 151 and not at the parser error
`window "Missing" does not exist`. -/
theorem TransformFuncCall_missing_window_behind_assertion :
    (windowCall "RANK" (some [some "x", some "y"]) (overNamed "Missing")).agg_order = none ∧
    (windowCall "RANK" (some [some "x", some "y"]) (overNamed "Missing")).agg_distinct = false ∧
    (windowCall "RANK" (some [some "x", some "y"]) (overNamed "Missing")).over =
      some (overNamed "Missing") ∧
    (sampleTransformer true sampleWindows).TransformExpressionList
        (windowCall "RANK" (some [some "x", some "y"]) (overNamed "Missing")).args =
      Except.ok (true, [some "x", some "y"]) ∧
    (overNamed "Missing").name = some "Missing" ∧
    (sampleTransformer true sampleWindows).window_clauses
        ((sampleTransformer true sampleWindows).Lower "Missing") = none ∧
    TransformFuncCall (sampleTransformer true sampleWindows)
        (windowCall "RANK" (some [some "x", some "y"]) (overNamed "Missing")) =
      Except.error (ThrownError.AssertionFailure
        "win_fun_type == ExpressionType::WINDOW_LEAD || win_fun_type == ExpressionType::WINDOW_LAG") ∧
    TransformFuncCall (sampleTransformer true sampleWindows)
        (windowCall "RANK" (some [some "x", some "y"]) (overNamed "Missing")) ≠
      Except.error (ThrownError.ParserException "window \"Missing\" does not exist") := by
  have hev : TransformFuncCall (sampleTransformer true sampleWindows)
      (windowCall "RANK" (some [some "x", some "y"]) (overNamed "Missing")) =
      Except.error (ThrownError.AssertionFailure
        "win_fun_type == ExpressionType::WINDOW_LEAD || win_fun_type == ExpressionType::WINDOW_LAG") :=
    rfl
  refine ⟨rfl, rfl, rfl, rfl, rfl, rfl, hev, ?_⟩
  rw [hev]
  intro h
  exact ThrownError.noConfusion (Except.error.inj h)

/-- C6, amended: on the window path (OVER present, no aggregate ORDER BY, no
DISTINCT), when the arguments transform (the argument list is null or
`TransformExpressionList` reports success) and, in a build with assertions, the
number of arguments fits the kind (any number for WINDOW_AGGREGATE, at most
three for WINDOW_LEAD and WINDOW_LAG, at most one for the other kinds): an OVER
name whose lowercased form is not a key of the named-window table makes
`TransformFuncCall` fail with the parser error `window "<name>" does not exist`
for the name as written, and so does a reference name of the working
specification whose lowercased form is not a key, for that reference name. -/
theorem TransformFuncCall_window_does_not_exist {Node Expr Order : Type}
    (T : Transformer Node Expr Order) (root : PGFuncCall Node) (over : PGWindowDef Node)
    (horder : root.agg_order = none) (hover : root.over = some over)
    (hdistinct : root.agg_distinct = false)
    (hargs : root.args = none ∨ ∃ function_list,
      T.TransformExpressionList root.args = Except.ok (true, function_list) ∧
      (T.assertions = true →
        WindowToExpressionType (T.Lower (qualifiedName T root).2) =
          ExpressionType.WINDOW_AGGREGATE ∨
        function_list.length ≤ 1 ∨
        ((WindowToExpressionType (T.Lower (qualifiedName T root).2) =
            ExpressionType.WINDOW_LEAD ∨
          WindowToExpressionType (T.Lower (qualifiedName T root).2) =
            ExpressionType.WINDOW_LAG) ∧
          function_list.length ≤ 3))) :
    (∀ name, over.name = some name → T.window_clauses (T.Lower name) = none →
      TransformFuncCall T root =
        Except.error (ThrownError.ParserException ("window \"" ++ name ++ "\" does not exist"))) ∧
    (∀ window_spec refname, resolveWindowSpec T over = Except.ok window_spec →
      window_spec.refname = some refname → T.window_clauses (T.Lower refname) = none →
      TransformFuncCall T root =
        Except.error (ThrownError.ParserException ("window \"" ++ refname ++ "\" does not exist"))) := by
  have hk := WindowToExpressionType_ne_INVALID (T.Lower (qualifiedName T root).2)
  obtain ⟨withArguments, hblock⟩ := transformWindowArguments_ok_of_counts T
    (WindowToExpressionType (T.Lower (qualifiedName T root).2)) root.args
    (WindowExpression.make (WindowToExpressionType (T.Lower (qualifiedName T root).2))
      (qualifiedName T root).1 (T.Lower (qualifiedName T root).2)) hargs
  rw [TransformFuncCall_of_over T root over horder hover]
  unfold transformWindowCall
  simp only [hdistinct, Bool.false_eq_true, if_false, hk, hblock]
  constructor
  · intro name hname hmissing
    simp [resolveWindowSpec, hname, findWindowClause, hmissing, windowDoesNotExist]
  · intro window_spec refname hspec hrefname hmissing
    simp [hspec, resolveWindowRef, hrefname, findWindowClause, hmissing, windowDoesNotExist]

/-- Witness for the amended C6: `LAG(x, n) OVER Missing` and
`RANK(x) OVER (Missing)` against the sample table, in a build with
assertions. -/
theorem TransformFuncCall_window_does_not_exist_witness :
    TransformFuncCall (sampleTransformer true sampleWindows)
        (windowCall "LAG" (some [some "x", some "n"]) (overNamed "Missing")) =
      Except.error (ThrownError.ParserException "window \"Missing\" does not exist") ∧
    TransformFuncCall (sampleTransformer true sampleWindows)
        (windowCall "RANK" (some [some "x"]) (overReferring "Missing")) =
      Except.error (ThrownError.ParserException "window \"Missing\" does not exist") :=
  ⟨(TransformFuncCall_window_does_not_exist (sampleTransformer true sampleWindows)
      (windowCall "LAG" (some [some "x", some "n"]) (overNamed "Missing")) (overNamed "Missing")
      rfl rfl rfl
      (Or.inr ⟨[some "x", some "n"], rfl, fun _ => Or.inr (Or.inr ⟨Or.inr rfl, by decide⟩)⟩)).1
      "Missing" rfl rfl,
    (TransformFuncCall_window_does_not_exist (sampleTransformer true sampleWindows)
      (windowCall "RANK" (some [some "x"]) (overReferring "Missing")) (overReferring "Missing")
      rfl rfl rfl
      (Or.inr ⟨[some "x"], rfl, fun _ => Or.inr (Or.inl (by decide))⟩)).2
      (overReferring "Missing") "Missing" rfl rfl rfl⟩

/-- The condition on the number of arguments in the amended C6 cannot be
dropped: in a build with assertions, a window call whose arguments transform
but whose number of arguments does not fit its kind stops at an assertion,
whatever the OVER specification is. -/
theorem TransformFuncCall_assertion_of_counts {Node Expr Order : Type}
    (T : Transformer Node Expr Order) (root : PGFuncCall Node) (over : PGWindowDef Node)
    (function_list : List (Option Expr))
    (horder : root.agg_order = none) (hover : root.over = some over)
    (hdistinct : root.agg_distinct = false) (hassert : T.assertions = true)
    (hsome : root.args ≠ none)
    (hlist : T.TransformExpressionList root.args = Except.ok (true, function_list))
    (hfit : ¬ (WindowToExpressionType (T.Lower (qualifiedName T root).2) =
          ExpressionType.WINDOW_AGGREGATE ∨
        function_list.length ≤ 1 ∨
        ((WindowToExpressionType (T.Lower (qualifiedName T root).2) =
            ExpressionType.WINDOW_LEAD ∨
          WindowToExpressionType (T.Lower (qualifiedName T root).2) =
            ExpressionType.WINDOW_LAG) ∧
          function_list.length ≤ 3))) :
    ∃ condition, TransformFuncCall T root =
      Except.error (ThrownError.AssertionFailure condition) := by
  have hk := WindowToExpressionType_ne_INVALID (T.Lower (qualifiedName T root).2)
  have hsome2 : root.args.isSome = true := by
    cases hr : root.args with
    | none => exact absurd hr hsome
    | some cells => rfl
  simp only [not_or, not_and] at hfit
  obtain ⟨hagg, hone, hthree⟩ := hfit
  have h1 : 1 < function_list.length := by omega
  rw [TransformFuncCall_of_over T root over horder hover]
  unfold transformWindowCall
  simp only [hdistinct, Bool.false_eq_true, if_false, hk]
  unfold transformWindowArguments
  simp only [hsome2, if_true, hlist, Bool.not_true, Bool.false_eq_true, if_false]
  unfold distributeWindowArguments
  simp only [hagg, if_false]
  unfold takeOffsetArgument takeDefaultArgument
  simp only [h1, if_true]
  by_cases hll : WindowToExpressionType (T.Lower (qualifiedName T root).2) =
        ExpressionType.WINDOW_LEAD ∨
      WindowToExpressionType (T.Lower (qualifiedName T root).2) = ExpressionType.WINDOW_LAG
  · have h3 : ¬ function_list.length ≤ 3 := hthree hll
    have h2 : 2 < function_list.length := by omega
    have hd : D_ASSERT T.assertions
        (WindowToExpressionType (T.Lower (qualifiedName T root).2) == ExpressionType.WINDOW_LEAD ||
          WindowToExpressionType (T.Lower (qualifiedName T root).2) == ExpressionType.WINDOW_LAG)
        "win_fun_type == ExpressionType::WINDOW_LEAD || win_fun_type == ExpressionType::WINDOW_LAG" =
        Except.ok () := by
      apply D_ASSERT_ok_of_imp
      intro _
      rcases hll with h | h <;> simp [h]
    have hmax : D_ASSERT T.assertions (decide (function_list.length ≤ 3))
        "function_list.size() <= 3" =
        Except.error (ThrownError.AssertionFailure "function_list.size() <= 3") := by
      simp [D_ASSERT, hassert, h3]
    simp only [hd, h2, if_true, hmax]
    exact ⟨_, rfl⟩
  · have hd : D_ASSERT T.assertions
        (WindowToExpressionType (T.Lower (qualifiedName T root).2) == ExpressionType.WINDOW_LEAD ||
          WindowToExpressionType (T.Lower (qualifiedName T root).2) == ExpressionType.WINDOW_LAG)
        "win_fun_type == ExpressionType::WINDOW_LEAD || win_fun_type == ExpressionType::WINDOW_LAG" =
        Except.error (ThrownError.AssertionFailure
          "win_fun_type == ExpressionType::WINDOW_LEAD || win_fun_type == ExpressionType::WINDOW_LAG") := by
      simp only [not_or] at hll
      simp [D_ASSERT, hassert, hll.1, hll.2]
    simp only [hd]
    exact ⟨_, rfl⟩

/-- In a build with assertions the argument block can stop a window call before
the window name is looked up: `RANK(x, y) OVER Missing` ends at the assertion
of line 151, not at the parser error. -/
theorem TransformFuncCall_assertion_before_window_lookup :
    TransformFuncCall (sampleTransformer true sampleWindows)
        (windowCall "RANK" (some [some "x", some "y"]) (overNamed "Missing")) =
      Except.error (ThrownError.AssertionFailure
        "win_fun_type == ExpressionType::WINDOW_LEAD || win_fun_type == ExpressionType::WINDOW_LAG") ∧
    TransformFuncCall (sampleTransformer false sampleWindows)
        (windowCall "RANK" (some [some "x", some "y"]) (overNamed "Missing")) =
      Except.error (ThrownError.ParserException "window \"Missing\" does not exist") :=
  ⟨rfl, rfl⟩

/-! ## Theorems: the non-window path -/

/-- C7 as stated fails: `COUNT() OVER ()` has a name that lowercases to `count`
and no arguments, and `TransformFuncCall` returns a window expression named
`count`, not a function expression named `count_star`. -/
theorem TransformFuncCall_count_over_not_count_star :
    asciiLower (qualifiedName (sampleTransformer true noWindows)
      (windowCall "COUNT" none (frameOnly 0x212 none none))).2 = "count" ∧
    (windowCall "COUNT" none (frameOnly 0x212 none none)).args = none ∧
    TransformFuncCall (sampleTransformer true noWindows)
        (windowCall "COUNT" none (frameOnly 0x212 none none)) =
      Except.ok (ParsedExpression.Window countOver) ∧
    ¬ ∃ f, TransformFuncCall (sampleTransformer true noWindows)
        (windowCall "COUNT" none (frameOnly 0x212 none none)) =
          Except.ok (ParsedExpression.Function f) ∧
        f.function_name = "count_star" ∧ f.children = [] := by
  have hev : TransformFuncCall (sampleTransformer true noWindows)
      (windowCall "COUNT" none (frameOnly 0x212 none none)) =
      Except.ok (ParsedExpression.Window countOver) := rfl
  refine ⟨rfl, rfl, hev, ?_⟩
  rintro ⟨f, hf, _⟩
  rw [hev] at hf
  have h2 := Except.ok.inj hf
  exact ParsedExpression.noConfusion h2

/-- C7, amended: without OVER clause and aggregate ORDER BY, a call whose name
lowercases to `count`, whose argument list is null or empty and whose FILTER,
if any, transforms, gives the function expression named `count_star` with no
arguments. -/
theorem TransformFuncCall_count_star {Node Expr Order : Type}
    (T : Transformer Node Expr Order) (root : PGFuncCall Node) (filter_expr : Option Expr)
    (horder : root.agg_order = none) (hover : root.over = none)
    (hname : T.Lower (qualifiedName T root).2 = "count")
    (hargs : root.args = none ∨ root.args = some [])
    (hnone : root.agg_filter = none → filter_expr = none)
    (hsome : ∀ node, root.agg_filter = some node →
      T.TransformExpression (some node) = Except.ok filter_expr) :
    TransformFuncCall T root = Except.ok (ParsedExpression.Function
      { schema := (qualifiedName T root).1, function_name := "count_star", children := [],
        filter := filter_expr, distinct := root.agg_distinct,
        query_location := some root.location }) := by
  have hchildren : List.Forall₂ (fun node child => T.TransformExpression node = Except.ok child)
      (root.args.getD []) ([] : List (Option Expr)) := by
    rcases hargs with h | h <;> simp [h]
  rw [TransformFuncCall_of_no_over T root horder hover,
    transformPlainCall_eq T root _ _ [] filter_expr hchildren hnone hsome, hname]
  simp [renameCountStar, buildCall, FunctionExpression.make]

/-- Witness for the amended C7: `Count()` becomes `count_star`. -/
theorem TransformFuncCall_count_star_witness :
    TransformFuncCall (sampleTransformer true noWindows) (plainCall "Count" none) =
      Except.ok (ParsedExpression.Function
        { schema := "", function_name := "count_star", children := [], filter := none,
          distinct := false, query_location := some 7 }) :=
  TransformFuncCall_count_star (sampleTransformer true noWindows) (plainCall "Count" none) none
    rfl rfl rfl (Or.inl rfl) (fun _ => rfl) (fun _ h => absurd h (by simp [plainCall]))

/-- C8: without OVER clause and aggregate ORDER BY, for a call whose name
lowercases to `if` and whose arguments and FILTER, if any, transform: with
exactly three arguments the result is the case expression with the single
check (first child, second child) and the third child as else branch; with any
other number of arguments the call fails with the parser error
`Wrong number of arguments to IF.`. -/
theorem TransformFuncCall_if {Node Expr Order : Type}
    (T : Transformer Node Expr Order) (root : PGFuncCall Node)
    (children : List (Option Expr)) (filter_expr : Option Expr)
    (horder : root.agg_order = none) (hover : root.over = none)
    (hname : T.Lower (qualifiedName T root).2 = "if")
    (hargs : List.Forall₂ (fun node child => T.TransformExpression node = Except.ok child)
      (root.args.getD []) children)
    (hnone : root.agg_filter = none → filter_expr = none)
    (hsome : ∀ node, root.agg_filter = some node →
      T.TransformExpression (some node) = Except.ok filter_expr) :
    (∀ c0 c1 c2, children = [c0, c1, c2] →
      TransformFuncCall T root = Except.ok (ParsedExpression.Case
        { case_checks := [{ when_expr := c0, then_expr := c1 }], else_expr := c2 })) ∧
    ((root.args.getD []).length ≠ 3 →
      TransformFuncCall T root =
        Except.error (ThrownError.ParserException "Wrong number of arguments to IF.")) := by
  have hlen := hargs.length_eq
  rw [TransformFuncCall_of_no_over T root horder hover,
    transformPlainCall_eq T root _ _ children filter_expr hargs hnone hsome, hname]
  have hrename : renameCountStar "if" children = "if" := by
    simp [renameCountStar]
  rw [hrename]
  constructor
  · intro c0 c1 c2 hc
    subst hc
    simp [buildCall]
  · intro hne
    rw [hlen] at hne
    simp [buildCall, hne]

/-- Witness for C8: `IF(c, t, e)` becomes a case expression and `IF(c, t)` is
refused. -/
theorem TransformFuncCall_if_witness :
    TransformFuncCall (sampleTransformer true noWindows)
        (plainCall "IF" (some [some "c", some "t", some "e"])) =
      Except.ok (ParsedExpression.Case
        { case_checks := [{ when_expr := some "c", then_expr := some "t" }],
          else_expr := some "e" }) ∧
    TransformFuncCall (sampleTransformer true noWindows)
        (plainCall "IF" (some [some "c", some "t"])) =
      Except.error (ThrownError.ParserException "Wrong number of arguments to IF.") :=
  ⟨(TransformFuncCall_if (sampleTransformer true noWindows)
      (plainCall "IF" (some [some "c", some "t", some "e"])) [some "c", some "t", some "e"] none
      rfl rfl rfl
      (List.Forall₂.cons rfl (List.Forall₂.cons rfl (List.Forall₂.cons rfl List.Forall₂.nil)))
      (fun _ => rfl) (fun _ h => absurd h (by simp [plainCall]))).1 _ _ _ rfl,
    (TransformFuncCall_if (sampleTransformer true noWindows)
      (plainCall "IF" (some [some "c", some "t"])) [some "c", some "t"] none
      rfl rfl rfl
      (List.Forall₂.cons rfl (List.Forall₂.cons rfl List.Forall₂.nil))
      (fun _ => rfl) (fun _ h => absurd h (by simp [plainCall]))).2 (by decide)⟩

/-- C9: without OVER clause and aggregate ORDER BY, for a call whose name
lowercases to `ifnull` and whose arguments and FILTER, if any, transform: with
exactly two arguments the result is the OPERATOR_COALESCE operator expression
over the two children in order; with any other number of arguments the call
fails with the parser error `Wrong number of arguments to IFNULL.`. -/
theorem TransformFuncCall_ifnull {Node Expr Order : Type}
    (T : Transformer Node Expr Order) (root : PGFuncCall Node)
    (children : List (Option Expr)) (filter_expr : Option Expr)
    (horder : root.agg_order = none) (hover : root.over = none)
    (hname : T.Lower (qualifiedName T root).2 = "ifnull")
    (hargs : List.Forall₂ (fun node child => T.TransformExpression node = Except.ok child)
      (root.args.getD []) children)
    (hnone : root.agg_filter = none → filter_expr = none)
    (hsome : ∀ node, root.agg_filter = some node →
      T.TransformExpression (some node) = Except.ok filter_expr) :
    (∀ c0 c1, children = [c0, c1] →
      TransformFuncCall T root = Except.ok (ParsedExpression.Operator
        { type := ExpressionType.OPERATOR_COALESCE, children := [c0, c1] })) ∧
    ((root.args.getD []).length ≠ 2 →
      TransformFuncCall T root =
        Except.error (ThrownError.ParserException "Wrong number of arguments to IFNULL.")) := by
  have hlen := hargs.length_eq
  rw [TransformFuncCall_of_no_over T root horder hover,
    transformPlainCall_eq T root _ _ children filter_expr hargs hnone hsome, hname]
  have hrename : renameCountStar "ifnull" children = "ifnull" := by
    simp [renameCountStar]
  rw [hrename]
  constructor
  · intro c0 c1 hc
    subst hc
    simp [buildCall]
  · intro hne
    rw [hlen] at hne
    simp [buildCall, hne]

/-- Witness for C9: `IfNull(a, b)` becomes a coalesce and `IfNull(a)` is
refused. -/
theorem TransformFuncCall_ifnull_witness :
    TransformFuncCall (sampleTransformer true noWindows)
        (plainCall "IfNull" (some [some "a", some "b"])) =
      Except.ok (ParsedExpression.Operator
        { type := ExpressionType.OPERATOR_COALESCE, children := [some "a", some "b"] }) ∧
    TransformFuncCall (sampleTransformer true noWindows) (plainCall "IfNull" (some [some "a"])) =
      Except.error (ThrownError.ParserException "Wrong number of arguments to IFNULL.") :=
  ⟨(TransformFuncCall_ifnull (sampleTransformer true noWindows)
      (plainCall "IfNull" (some [some "a", some "b"])) [some "a", some "b"] none
      rfl rfl rfl
      (List.Forall₂.cons rfl (List.Forall₂.cons rfl List.Forall₂.nil))
      (fun _ => rfl) (fun _ h => absurd h (by simp [plainCall]))).1 _ _ rfl,
    (TransformFuncCall_ifnull (sampleTransformer true noWindows)
      (plainCall "IfNull" (some [some "a"])) [some "a"] none
      rfl rfl rfl
      (List.Forall₂.cons rfl List.Forall₂.nil)
      (fun _ => rfl) (fun _ h => absurd h (by simp [plainCall]))).2 (by decide)⟩

/-- C10: without OVER clause and aggregate ORDER BY, for a call whose
lowercased name is neither `if` nor `ifnull` and whose arguments and FILTER, if
any, transform, the result is the function expression with the extracted
schema, the lowercased name (`count_star` for `count` without arguments), the
transformed arguments in order (as many as there are arguments), the
transformed FILTER (null without FILTER), the DISTINCT flag of the node and
the source location of the node. -/
theorem TransformFuncCall_generic {Node Expr Order : Type}
    (T : Transformer Node Expr Order) (root : PGFuncCall Node)
    (children : List (Option Expr)) (filter_expr : Option Expr)
    (horder : root.agg_order = none) (hover : root.over = none)
    (hif : T.Lower (qualifiedName T root).2 ≠ "if")
    (hifnull : T.Lower (qualifiedName T root).2 ≠ "ifnull")
    (hargs : List.Forall₂ (fun node child => T.TransformExpression node = Except.ok child)
      (root.args.getD []) children)
    (hnone : root.agg_filter = none → filter_expr = none)
    (hsome : ∀ node, root.agg_filter = some node →
      T.TransformExpression (some node) = Except.ok filter_expr) :
    TransformFuncCall T root = Except.ok (ParsedExpression.Function
      { schema := (qualifiedName T root).1,
        function_name :=
          if T.Lower (qualifiedName T root).2 = "count" ∧ children.isEmpty then "count_star"
          else T.Lower (qualifiedName T root).2,
        children := children, filter := filter_expr, distinct := root.agg_distinct,
        query_location := some root.location }) ∧
    children.length = (root.args.getD []).length := by
  refine ⟨?_, hargs.length_eq.symm⟩
  rw [TransformFuncCall_of_no_over T root horder hover,
    transformPlainCall_eq T root _ _ children filter_expr hargs hnone hsome]
  have hrename : renameCountStar (T.Lower (qualifiedName T root).2) children =
      if T.Lower (qualifiedName T root).2 = "count" ∧ children.isEmpty then "count_star"
      else T.Lower (qualifiedName T root).2 := by
    simp [renameCountStar]
  rw [hrename]
  have h1 : (if T.Lower (qualifiedName T root).2 = "count" ∧ children.isEmpty then "count_star"
      else T.Lower (qualifiedName T root).2) ≠ "if" := by
    split_ifs
    · decide
    · exact hif
  have h2 : (if T.Lower (qualifiedName T root).2 = "count" ∧ children.isEmpty then "count_star"
      else T.Lower (qualifiedName T root).2) ≠ "ifnull" := by
    split_ifs
    · decide
    · exact hifnull
  unfold buildCall
  rw [if_neg h1, if_neg h2]
  rfl

/-- Witness for C10: a schema-qualified call with DISTINCT and FILTER. -/
theorem TransformFuncCall_generic_witness :
    TransformFuncCall (sampleTransformer true noWindows) qualifiedCall =
      Except.ok (ParsedExpression.Function
        { schema := "s", function_name := "round", children := [some "x", some "d"],
          filter := some "keep", distinct := true, query_location := some 42 }) :=
  (TransformFuncCall_generic (sampleTransformer true noWindows) qualifiedCall
    [some "x", some "d"] (some "keep") rfl rfl (by decide) (by decide)
    (List.Forall₂.cons rfl (List.Forall₂.cons rfl List.Forall₂.nil))
    (fun h => absurd h (by simp [qualifiedCall]))
    (fun node h => by
      have hn : node = "keep" := by
        simp only [qualifiedCall, Option.some.injEq] at h
        exact h.symm
      subst hn
      rfl)).1


/-! ## Theorems: names, schemas and gates -/

/-- A name path of two identifiers is read as (schema, function name). -/
theorem qualifiedName_of_two {Node Expr Order : Type} (T : Transformer Node Expr Order)
    (root : PGFuncCall Node) (first second : String) (h : root.funcname = (first, [second])) :
    qualifiedName T root = (first, second) := by
  simp [qualifiedName, h]

/-- A name path of one identifier is read as (`INVALID_SCHEMA`, function
name). -/
theorem qualifiedName_of_one {Node Expr Order : Type} (T : Transformer Node Expr Order)
    (root : PGFuncCall Node) (only : String) (h : root.funcname = (only, [])) :
    qualifiedName T root = (T.INVALID_SCHEMA, only) := by
  simp [qualifiedName, h]

/-- A function expression built by `buildCall` carries the schema and the name
it was given. -/
theorem buildCall_function_form {Node Expr Order : Type} (root : PGFuncCall Node)
    (schema lowercase_name : String) (children : List (Option Expr)) (filter_expr : Option Expr)
    (f : FunctionExpression Expr)
    (h : (buildCall root schema lowercase_name children filter_expr :
      Except ThrownError (ParsedExpression Expr Order)) = Except.ok (ParsedExpression.Function f)) :
    f = { schema := schema, function_name := lowercase_name, children := children,
          filter := filter_expr, distinct := root.agg_distinct,
          query_location := some root.location } := by
  unfold buildCall at h
  by_cases h1 : lowercase_name = "if"
  · simp only [h1, if_true] at h
    by_cases hl : children.length ≠ 3
    · simp [hl] at h
    · simp only [hl, if_false] at h
      exact ParsedExpression.noConfusion (Except.ok.inj h)
  · simp only [h1, if_false] at h
    by_cases h2 : lowercase_name = "ifnull"
    · simp only [h2, if_true] at h
      by_cases hl : children.length ≠ 2
      · simp [hl] at h
      · simp only [hl, if_false] at h
        exact ParsedExpression.noConfusion (Except.ok.inj h)
    · simp only [h2, if_false] at h
      have h3 := Except.ok.inj h
      injection h3 with h4
      exact h4.symm

/-- A function expression returned by the non-window path carries the schema it
was given and the name after the `count_star` rename. -/
theorem transformPlainCall_function_form {Node Expr Order : Type} (T : Transformer Node Expr Order)
    (root : PGFuncCall Node) (schema lowercase_name : String) (f : FunctionExpression Expr)
    (h : transformPlainCall T root schema lowercase_name =
      Except.ok (ParsedExpression.Function f)) :
    f.schema = schema ∧ f.function_name = renameCountStar lowercase_name f.children ∧
      f.distinct = root.agg_distinct ∧ f.query_location = some root.location := by
  unfold transformPlainCall at h
  cases hc : transformChildren T (root.args.getD []) with
  | error err => simp [hc] at h
  | ok children =>
    simp only [hc] at h
    cases hf : transformFilter T root.agg_filter with
    | error err => simp [hf] at h
    | ok filter_expr =>
      simp only [hf] at h
      have hform := buildCall_function_form root schema _ children filter_expr f h
      subst hform
      exact ⟨rfl, rfl, rfl, rfl⟩

/-- The non-window path never returns a window expression. -/
theorem transformPlainCall_ne_window {Node Expr Order : Type} (T : Transformer Node Expr Order)
    (root : PGFuncCall Node) (schema lowercase_name : String) (w : WindowExpression Expr Order) :
    transformPlainCall T root schema lowercase_name ≠ Except.ok (ParsedExpression.Window w) := by
  intro h
  unfold transformPlainCall at h
  cases hc : transformChildren T (root.args.getD []) with
  | error err => simp [hc] at h
  | ok children =>
    simp only [hc] at h
    cases hf : transformFilter T root.agg_filter with
    | error err => simp [hf] at h
    | ok filter_expr =>
      simp only [hf] at h
      unfold buildCall at h
      split_ifs at h
      all_goals exact ParsedExpression.noConfusion (Except.ok.inj h)

/-- The fields of the window expression behind a successful window call: kind,
schema and name come from the constructor, children and the offset and default
expressions from the argument block, partitions and orders from `window_ref`,
boundaries and boundary offsets from `window_spec`. -/
theorem transformWindowCall_ok_fields {Node Expr Order : Type} (T : Transformer Node Expr Order)
    (root : PGFuncCall Node) (schema lowercase_name : String) (over : PGWindowDef Node)
    (result : ParsedExpression Expr Order)
    (h : transformWindowCall T root schema lowercase_name over = Except.ok result) :
    ∃ withArguments window_spec window_ref w,
      result = ParsedExpression.Window w ∧
      transformWindowArguments T (WindowToExpressionType lowercase_name) root.args
        (WindowExpression.make (WindowToExpressionType lowercase_name) schema lowercase_name) =
          Except.ok withArguments ∧
      resolveWindowSpec T over = Except.ok window_spec ∧
      resolveWindowRef T window_spec = Except.ok window_ref ∧
      w.type = WindowToExpressionType lowercase_name ∧
      w.schema = schema ∧ w.function_name = lowercase_name ∧
      w.children = withArguments.children ∧
      w.offset_expr = withArguments.offset_expr ∧
      w.default_expr = withArguments.default_expr ∧
      (∃ flag, T.TransformExpressionList window_ref.partitionClause = Except.ok (flag, w.partitions)) ∧
      (∃ flag, T.TransformOrderBy window_ref.orderClause = Except.ok (flag, w.orders)) ∧
      w.start = decodeStart T.masks window_spec.frameOptions WindowBoundary.INVALID ∧
      w.end_ = decodeEnd T.masks window_spec.frameOptions WindowBoundary.INVALID ∧
      T.TransformExpression window_spec.startOffset = Except.ok w.start_expr ∧
      T.TransformExpression window_spec.endOffset = Except.ok w.end_expr ∧
      nonsensicalFrame T.masks window_spec.frameOptions = false := by
  obtain ⟨_, withArguments, window_spec, window_ref, withDefinition, expr, ha, hs, hr, hdef, hf,
    hres⟩ := transformWindowCall_ok_form T root schema lowercase_name over result h
  have ea := transformWindowArguments_ok_form T _ _ _ _ ha
  obtain ⟨partFlag, parts, orderFlag, ords, hp, ho, ed⟩ :=
    TransformWindowDef_ok_form T window_ref withArguments withDefinition hdef
  obtain ⟨s, e, hse, hee, ef, hnon, _, _⟩ :=
    TransformWindowFrame_ok_form T window_spec withDefinition expr hf
  have e1 : withDefinition = { (WindowExpression.make (WindowToExpressionType lowercase_name)
      schema lowercase_name : WindowExpression Expr Order) with
      children := withArguments.children, offset_expr := withArguments.offset_expr,
      default_expr := withArguments.default_expr, partitions := parts, orders := ords } := by
    rw [ed, ea]
    simp [WindowExpression.make]
  refine ⟨withArguments, window_spec, window_ref, expr, hres, ha, hs, hr, ?_, ?_, ?_, ?_, ?_, ?_,
    ⟨partFlag, ?_⟩, ⟨orderFlag, ?_⟩, ?_, ?_, ?_, ?_, hnon⟩
  all_goals
    first
    | (rw [hp, ef, e1]; rfl)
    | (rw [ho, ef, e1]; rfl)
    | (rw [hse, ef]; rfl)
    | (rw [hee, ef]; rfl)
    | (rw [ef, e1]; rfl)


/-- C11 as stated fails: `Count()` has a one-identifier name path, and the
function expression returned is named `count_star`, not the lowercased
identifier `count`. -/
theorem TransformFuncCall_name_not_lowercased_identifier :
    (plainCall "Count" none).funcname = ("Count", []) ∧
    asciiLower "Count" = "count" ∧
    ∃ f, TransformFuncCall (sampleTransformer true noWindows) (plainCall "Count" none) =
        Except.ok (ParsedExpression.Function f) ∧
      f.function_name = "count_star" ∧
      f.function_name ≠ (sampleTransformer true noWindows).Lower "Count" :=
  ⟨rfl, rfl, _, rfl, rfl, by decide⟩

/-- C11, amended: for every call turned into a function expression or a window
expression, a name path of two identifiers gives the first identifier as
schema, a name path of one identifier gives `INVALID_SCHEMA` as schema and
never `DEFAULT_SCHEMA` (the two constants, declared outside of this file,
being distinct), and the function name is the lowercased last identifier,
except that a function expression for `count` without arguments is named
`count_star`. -/
theorem TransformFuncCall_schema_and_name {Node Expr Order : Type}
    (T : Transformer Node Expr Order) (root : PGFuncCall Node)
    (result : ParsedExpression Expr Order)
    (hconstants : T.INVALID_SCHEMA ≠ T.DEFAULT_SCHEMA)
    (h : TransformFuncCall T root = Except.ok result) :
    (∀ first second, root.funcname = (first, [second]) →
      (∀ w, result = ParsedExpression.Window w →
        w.schema = first ∧ w.function_name = T.Lower second) ∧
      (∀ f, result = ParsedExpression.Function f →
        f.schema = first ∧
        f.function_name =
          if T.Lower second = "count" ∧ f.children.isEmpty then "count_star"
          else T.Lower second)) ∧
    (∀ only, root.funcname = (only, []) →
      (∀ w, result = ParsedExpression.Window w →
        w.schema = T.INVALID_SCHEMA ∧ w.schema ≠ T.DEFAULT_SCHEMA ∧
        w.function_name = T.Lower only) ∧
      (∀ f, result = ParsedExpression.Function f →
        f.schema = T.INVALID_SCHEMA ∧ f.schema ≠ T.DEFAULT_SCHEMA ∧
        f.function_name =
          if T.Lower only = "count" ∧ f.children.isEmpty then "count_star"
          else T.Lower only)) := by
  have key : ∀ schema name, qualifiedName T root = (schema, name) →
      (∀ w, result = ParsedExpression.Window w →
        w.schema = schema ∧ w.function_name = T.Lower name) ∧
      (∀ f, result = ParsedExpression.Function f →
        f.schema = schema ∧
        f.function_name =
          if T.Lower name = "count" ∧ f.children.isEmpty then "count_star" else T.Lower name) := by
    intro schema name hq
    have horder := agg_order_eq_none_of_ok T root result h
    cases hover : root.over with
    | some over =>
      rw [TransformFuncCall_of_over T root over horder hover, hq] at h
      obtain ⟨_, _, _, w, hres, _, _, _, _, hschema, hname, _⟩ :=
        transformWindowCall_ok_fields T root _ _ over result h
      subst hres
      constructor
      · intro w2 hw
        injection hw with hw
        subst hw
        exact ⟨hschema, hname⟩
      · intro f hf
        exact ParsedExpression.noConfusion hf
    | none =>
      rw [TransformFuncCall_of_no_over T root horder hover, hq] at h
      constructor
      · intro w hw
        subst hw
        exact absurd h (transformPlainCall_ne_window T root _ _ w)
      · intro f hf
        subst hf
        obtain ⟨hschema, hname, _, _⟩ := transformPlainCall_function_form T root _ _ f h
        exact ⟨hschema, by simpa [renameCountStar] using hname⟩
  constructor
  · intro first second hpath
    exact key first second (qualifiedName_of_two T root first second hpath)
  · intro only hpath
    obtain ⟨hw, hf⟩ := key T.INVALID_SCHEMA only (qualifiedName_of_one T root only hpath)
    constructor
    · intro w hres
      obtain ⟨h1, h2⟩ := hw w hres
      exact ⟨h1, by rw [h1]; exact hconstants, h2⟩
    · intro f hres
      obtain ⟨h1, h2⟩ := hf f hres
      exact ⟨h1, by rw [h1]; exact hconstants, h2⟩

/-- Witness for the amended C11: the schema-qualified `s.Round(x, d)` and the
unqualified `SUM(x) OVER W_A`, with `INVALID_SCHEMA` the empty string and
`DEFAULT_SCHEMA` the string `main`. -/
theorem TransformFuncCall_schema_and_name_witness :
    (∀ f, (ParsedExpression.Function
        { schema := "s", function_name := "round", children := [some "x", some "d"],
          filter := some "keep", distinct := true, query_location := some 42 } :
        ParsedExpression String (Option String)) = ParsedExpression.Function f →
      f.schema = "s" ∧
      f.function_name =
        if asciiLower "Round" = "count" ∧ f.children.isEmpty then "count_star"
        else asciiLower "Round") ∧
    (∀ w, ParsedExpression.Window sumOverA = ParsedExpression.Window w →
      w.schema = "" ∧ w.schema ≠ "main" ∧ w.function_name = asciiLower "SUM") :=
  ⟨((TransformFuncCall_schema_and_name (sampleTransformer true noWindows) qualifiedCall _
      (by decide)
      (rfl : TransformFuncCall (sampleTransformer true noWindows) qualifiedCall =
        Except.ok (ParsedExpression.Function
          { schema := "s", function_name := "round", children := [some "x", some "d"],
            filter := some "keep", distinct := true, query_location := some 42 }))).1
      "s" "Round" rfl).2,
    ((TransformFuncCall_schema_and_name (sampleTransformer true sampleWindows)
      (windowCall "SUM" (some [some "x"]) (overNamed "W_A")) _
      (by decide)
      (rfl : TransformFuncCall (sampleTransformer true sampleWindows)
        (windowCall "SUM" (some [some "x"]) (overNamed "W_A")) =
          Except.ok (ParsedExpression.Window sumOverA))).2
      "SUM" rfl).1⟩

/-- C15: a node with an aggregate ORDER BY fails with the parser error
`ORDER BY is not implemented for aggregates`, and a node without it that has
both an OVER clause and DISTINCT fails with the parser error
`DISTINCT is not implemented for window functions!`, whatever the other
fields, the named-window table and the collaborators are. -/
theorem TransformFuncCall_unsupported_gates {Node Expr Order : Type}
    (T : Transformer Node Expr Order) (root : PGFuncCall Node) :
    (root.agg_order ≠ none →
      TransformFuncCall T root =
        Except.error (ThrownError.ParserException "ORDER BY is not implemented for aggregates")) ∧
    (root.agg_order = none → root.over ≠ none → root.agg_distinct = true →
      TransformFuncCall T root =
        Except.error
          (ThrownError.ParserException "DISTINCT is not implemented for window functions!")) := by
  constructor
  · intro horder
    cases ho : root.agg_order with
    | none => exact absurd ho horder
    | some order => simp [TransformFuncCall, ho]
  · intro horder hover hdistinct
    cases ho : root.over with
    | none => exact absurd ho hover
    | some over =>
      rw [TransformFuncCall_of_over T root over horder ho]
      simp [transformWindowCall, hdistinct]

/-- Witness for C15: a call on which every later step would fail is stopped by
the ORDER BY gate, and without ORDER BY by the DISTINCT gate. -/
theorem TransformFuncCall_unsupported_gates_witness :
    TransformFuncCall (sampleTransformer true noWindows) (hopelessCall (some [some "bad"]) true) =
      Except.error (ThrownError.ParserException "ORDER BY is not implemented for aggregates") ∧
    TransformFuncCall (sampleTransformer true noWindows) (hopelessCall none true) =
      Except.error
        (ThrownError.ParserException "DISTINCT is not implemented for window functions!") :=
  ⟨(TransformFuncCall_unsupported_gates (sampleTransformer true noWindows)
      (hopelessCall (some [some "bad"]) true)).1 (by simp [hopelessCall]),
    (TransformFuncCall_unsupported_gates (sampleTransformer true noWindows)
      (hopelessCall none true)).2 rfl (by simp [hopelessCall]) rfl⟩


/-! ## Theorems: the window-kind classifier -/

/-- The classifier agrees with the table on every table name. -/
theorem WindowToExpressionType_table :
    ∀ entry ∈ windowKindTable, WindowToExpressionType entry.1 = entry.2 := by
  decide

/-- Two table names get the same kind exactly when they are aliases. -/
theorem WindowToExpressionType_aliases :
    ∀ a ∈ windowTableNames, ∀ b ∈ windowTableNames,
      (WindowToExpressionType a = WindowToExpressionType b ↔ areAliases a b = true) := by
  decide

/-- Every string outside of the table is classified as WINDOW_AGGREGATE. -/
theorem WindowToExpressionType_fallback (fun_name : String)
    (h : fun_name ∉ windowTableNames) :
    WindowToExpressionType fun_name = ExpressionType.WINDOW_AGGREGATE := by
  simp only [windowTableNames, windowKindTable, List.map, List.mem_cons, List.mem_singleton,
    List.not_mem_nil, or_false, not_or] at h
  obtain ⟨h1, h2, h3, h4, h5, h6, h7, h8, h9, h10, h11, h12, h13⟩ := h
  simp [WindowToExpressionType, h1, h2, h3, h4, h5, h6, h7, h8, h9, h10, h11, h12, h13]


/-- An error of the argument loop is an error of `TransformExpression`. -/
theorem transformChildren_error {Node Expr Order : Type} (T : Transformer Node Expr Order)
    (nodes : List (Option Node)) (err : ThrownError)
    (h : transformChildren T nodes = Except.error err) :
    ∃ node, T.TransformExpression node = Except.error err := by
  induction nodes with
  | nil => simp [transformChildren] at h
  | cons node rest ih =>
    unfold transformChildren at h
    cases hn : T.TransformExpression node with
    | error e =>
      simp only [hn] at h
      exact ⟨node, by rw [hn, Except.error.inj h]⟩
    | ok child =>
      simp only [hn] at h
      cases hr : transformChildren T rest with
      | error e =>
        simp only [hr] at h
        exact ih (by rw [hr, Except.error.inj h])
      | ok cs => simp [hr] at h

/-- Where an error of `TransformWindowFrame` comes from. -/
theorem TransformWindowFrame_error_cases {Node Expr Order : Type} (T : Transformer Node Expr Order)
    (window_spec : PGWindowDef Node) (expr : WindowExpression Expr Order) (err : ThrownError)
    (h : TransformWindowFrame T window_spec expr = Except.error err) :
    (∃ node, T.TransformExpression node = Except.error err) ∨
    (∃ condition, err = ThrownError.AssertionFailure condition) ∨
    err = ThrownError.Exception nonsensicalFrameMessage ∨
    err = ThrownError.Exception "Failed to transform window boundary expression" := by
  cases hs : T.TransformExpression window_spec.startOffset with
  | error e =>
    simp only [TransformWindowFrame, hs] at h
    exact Or.inl ⟨_, by rw [hs, Except.error.inj h]⟩
  | ok s =>
    cases he : T.TransformExpression window_spec.endOffset with
    | error e =>
      simp only [TransformWindowFrame, hs, he] at h
      exact Or.inl ⟨_, by rw [he, Except.error.inj h]⟩
    | ok e =>
      rw [TransformWindowFrame_eq T window_spec expr s e hs he] at h
      split_ifs at h
      · exact Or.inr (Or.inr (Or.inl (Except.error.inj h).symm))
      · exact Or.inr (Or.inl ⟨_, (Except.error.inj h).symm⟩)
      · exact Or.inr (Or.inr (Or.inr (Except.error.inj h).symm))

/-- Where an error of `TransformWindowDef` comes from. -/
theorem TransformWindowDef_error_cases {Node Expr Order : Type} (T : Transformer Node Expr Order)
    (window_spec : PGWindowDef Node) (expr : WindowExpression Expr Order) (err : ThrownError)
    (h : TransformWindowDef T window_spec expr = Except.error err) :
    (∃ list, T.TransformExpressionList list = Except.error err) ∨
    (∃ list, T.TransformOrderBy list = Except.error err) := by
  unfold TransformWindowDef at h
  cases hp : T.TransformExpressionList window_spec.partitionClause with
  | error e =>
    simp only [hp] at h
    exact Or.inl ⟨_, by rw [hp, Except.error.inj h]⟩
  | ok parts =>
    simp only [hp] at h
    cases ho : T.TransformOrderBy window_spec.orderClause with
    | error e =>
      simp only [ho] at h
      exact Or.inr ⟨_, by rw [ho, Except.error.inj h]⟩
    | ok ords => simp [ho] at h

/-- An error of `D_ASSERT` is an assertion failure. -/
theorem D_ASSERT_error (assertions condition : Bool) (text : String) (err : ThrownError)
    (h : D_ASSERT assertions condition text = Except.error err) :
    err = ThrownError.AssertionFailure text := by
  unfold D_ASSERT at h
  split_ifs at h
  exact (Except.error.inj h).symm

/-- An error of the argument distribution is an assertion failure. -/
theorem distributeWindowArguments_error {Expr Order : Type} (assertions : Bool)
    (win_fun_type : ExpressionType) (function_list : List (Option Expr))
    (expr : WindowExpression Expr Order) (err : ThrownError)
    (h : distributeWindowArguments assertions win_fun_type function_list expr = Except.error err) :
    ∃ condition, err = ThrownError.AssertionFailure condition := by
  unfold distributeWindowArguments at h
  by_cases hk : win_fun_type = ExpressionType.WINDOW_AGGREGATE
  · simp [hk] at h
  · simp only [hk, if_false] at h
    generalize (if function_list.isEmpty = true then expr
      else { expr with children := expr.children ++ [function_list.getD 0 none] }) = withChild at h
    cases hoff : takeOffsetArgument assertions win_fun_type function_list withChild with
    | error e =>
      simp only [hoff] at h
      have he := Except.error.inj h
      subst he
      unfold takeOffsetArgument at hoff
      by_cases hlen : 1 < function_list.length
      · simp only [hlen, if_true] at hoff
        cases hd : D_ASSERT assertions
            (win_fun_type == ExpressionType.WINDOW_LEAD || win_fun_type == ExpressionType.WINDOW_LAG)
            "win_fun_type == ExpressionType::WINDOW_LEAD || win_fun_type == ExpressionType::WINDOW_LAG" with
        | error e2 =>
          simp only [hd] at hoff
          have := Except.error.inj hoff
          subst this
          exact ⟨_, D_ASSERT_error _ _ _ _ hd⟩
        | ok u => simp [hd] at hoff
      · simp [hlen] at hoff
    | ok withOffset =>
      simp only [hoff] at h
      cases hdef : takeDefaultArgument assertions win_fun_type function_list withOffset with
      | error e =>
        simp only [hdef] at h
        have he := Except.error.inj h
        subst he
        unfold takeDefaultArgument at hdef
        by_cases hlen : 2 < function_list.length
        · simp only [hlen, if_true] at hdef
          cases hd : D_ASSERT assertions
              (win_fun_type == ExpressionType.WINDOW_LEAD || win_fun_type == ExpressionType.WINDOW_LAG)
              "win_fun_type == ExpressionType::WINDOW_LEAD || win_fun_type == ExpressionType::WINDOW_LAG" with
          | error e2 =>
            simp only [hd] at hdef
            have := Except.error.inj hdef
            subst this
            exact ⟨_, D_ASSERT_error _ _ _ _ hd⟩
          | ok u => simp [hd] at hdef
        · simp [hlen] at hdef
      | ok withDefault =>
        simp only [hdef] at h
        cases hd : D_ASSERT assertions (decide (function_list.length ≤ 3))
            "function_list.size() <= 3" with
        | error e2 =>
          simp only [hd] at h
          have := Except.error.inj h
          subst this
          exact ⟨_, D_ASSERT_error _ _ _ _ hd⟩
        | ok u => simp [hd] at h

/-- Where an error of the argument block of the window path comes from. -/
theorem transformWindowArguments_error_cases {Node Expr Order : Type}
    (T : Transformer Node Expr Order) (win_fun_type : ExpressionType) (args : PGList Node)
    (expr : WindowExpression Expr Order) (err : ThrownError)
    (h : transformWindowArguments T win_fun_type args expr = Except.error err) :
    (∃ list, T.TransformExpressionList list = Except.error err) ∨
    (∃ condition, err = ThrownError.AssertionFailure condition) ∨
    err = ThrownError.Exception "Failed to transform window function children" := by
  unfold transformWindowArguments at h
  by_cases hsome : args.isSome = true
  · simp only [hsome, if_true] at h
    cases hl : T.TransformExpressionList args with
    | error e =>
      simp only [hl] at h
      exact Or.inl ⟨_, by rw [hl, Except.error.inj h]⟩
    | ok pair =>
      obtain ⟨res, function_list⟩ := pair
      simp only [hl] at h
      cases res with
      | false =>
        simp only [Bool.not_false, if_true] at h
        exact Or.inr (Or.inr (Except.error.inj h).symm)
      | true =>
        simp only [Bool.not_true, Bool.false_eq_true, if_false] at h
        exact Or.inr (Or.inl (distributeWindowArguments_error _ _ _ _ _ h))
  · simp [hsome] at h

/-- An error of a window lookup is a parser error. -/
theorem findWindowClause_error {Node Expr Order : Type} (T : Transformer Node Expr Order)
    (name : String) (err : ThrownError) (h : findWindowClause T name = Except.error err) :
    ∃ msg, err = ThrownError.ParserException msg := by
  unfold findWindowClause at h
  cases hw : T.window_clauses (T.Lower name) with
  | none =>
    simp only [hw] at h
    exact ⟨_, (Except.error.inj h).symm⟩
  | some definition => simp [hw] at h

/-- Where an error of `TransformFuncCall` comes from: a collaborator, a parser
error, an assertion, or one of three exceptions of the window path. -/
theorem TransformFuncCall_error_cases {Node Expr Order : Type} (T : Transformer Node Expr Order)
    (root : PGFuncCall Node) (err : ThrownError)
    (h : TransformFuncCall T root = Except.error err) :
    (∃ node, T.TransformExpression node = Except.error err) ∨
    (∃ list, T.TransformExpressionList list = Except.error err) ∨
    (∃ list, T.TransformOrderBy list = Except.error err) ∨
    (∃ msg, err = ThrownError.ParserException msg) ∨
    (∃ condition, err = ThrownError.AssertionFailure condition) ∨
    err = ThrownError.Exception "Failed to transform window function children" ∨
    err = ThrownError.Exception nonsensicalFrameMessage ∨
    err = ThrownError.Exception "Failed to transform window boundary expression" := by
  cases horder : root.agg_order with
  | some order =>
    simp only [TransformFuncCall, horder, Option.isSome_some, if_true] at h
    exact Or.inr (Or.inr (Or.inr (Or.inl ⟨_, (Except.error.inj h).symm⟩)))
  | none =>
    cases hover : root.over with
    | none =>
      rw [TransformFuncCall_of_no_over T root horder hover] at h
      unfold transformPlainCall at h
      cases hc : transformChildren T (root.args.getD []) with
      | error e =>
        simp only [hc] at h
        have he := Except.error.inj h
        subst he
        exact Or.inl (transformChildren_error T _ _ hc)
      | ok children =>
        simp only [hc] at h
        cases hf : transformFilter T root.agg_filter with
        | error e =>
          simp only [hf] at h
          have he := Except.error.inj h
          subst he
          unfold transformFilter at hf
          split_ifs at hf
          exact Or.inl ⟨_, hf⟩
        | ok filter_expr =>
          simp only [hf] at h
          unfold buildCall at h
          split_ifs at h
          all_goals exact Or.inr (Or.inr (Or.inr (Or.inl ⟨_, (Except.error.inj h).symm⟩)))
    | some over =>
      rw [TransformFuncCall_of_over T root over horder hover] at h
      unfold transformWindowCall at h
      cases hd : root.agg_distinct with
      | true =>
        simp only [hd, if_true] at h
        exact Or.inr (Or.inr (Or.inr (Or.inl ⟨_, (Except.error.inj h).symm⟩)))
      | false =>
        simp only [hd, Bool.false_eq_true, if_false,
          WindowToExpressionType_ne_INVALID (T.Lower (qualifiedName T root).2)] at h
        cases ha : transformWindowArguments T
            (WindowToExpressionType (T.Lower (qualifiedName T root).2)) root.args
            (WindowExpression.make (WindowToExpressionType (T.Lower (qualifiedName T root).2))
              (qualifiedName T root).1 (T.Lower (qualifiedName T root).2)) with
        | error e =>
          simp only [ha] at h
          have he := Except.error.inj h
          subst he
          rcases transformWindowArguments_error_cases T _ _ _ _ ha with h1 | h1 | h1
          · exact Or.inr (Or.inl h1)
          · exact Or.inr (Or.inr (Or.inr (Or.inr (Or.inl h1))))
          · exact Or.inr (Or.inr (Or.inr (Or.inr (Or.inr (Or.inl h1)))))
        | ok withArguments =>
          simp only [ha] at h
          cases hs : resolveWindowSpec T over with
          | error e =>
            simp only [hs] at h
            have he := Except.error.inj h
            subst he
            unfold resolveWindowSpec at hs
            cases hn : over.name with
            | none => simp [hn] at hs
            | some name =>
              simp only [hn] at hs
              exact Or.inr (Or.inr (Or.inr (Or.inl (findWindowClause_error T name _ hs))))
          | ok window_spec =>
            simp only [hs] at h
            cases hr : resolveWindowRef T window_spec with
            | error e =>
              simp only [hr] at h
              have he := Except.error.inj h
              subst he
              unfold resolveWindowRef at hr
              cases hn : window_spec.refname with
              | none => simp [hn] at hr
              | some name =>
                simp only [hn] at hr
                exact Or.inr (Or.inr (Or.inr (Or.inl (findWindowClause_error T name _ hr))))
            | ok window_ref =>
              simp only [hr] at h
              cases hdef : TransformWindowDef T window_ref withArguments with
              | error e =>
                simp only [hdef] at h
                have he := Except.error.inj h
                subst he
                rcases TransformWindowDef_error_cases T _ _ _ hdef with h1 | h1
                · exact Or.inr (Or.inl h1)
                · exact Or.inr (Or.inr (Or.inl h1))
              | ok withDefinition =>
                simp only [hdef] at h
                cases hf : TransformWindowFrame T window_spec withDefinition with
                | error e =>
                  simp only [hf] at h
                  have he := Except.error.inj h
                  subst he
                  rcases TransformWindowFrame_error_cases T _ _ _ hf with h1 | h1 | h1 | h1
                  · exact Or.inl h1
                  · exact Or.inr (Or.inr (Or.inr (Or.inr (Or.inl h1))))
                  · exact Or.inr (Or.inr (Or.inr (Or.inr (Or.inr (Or.inr (Or.inl h1))))))
                  · exact Or.inr (Or.inr (Or.inr (Or.inr (Or.inr (Or.inr (Or.inr h1))))))
                | ok expr => simp [hf] at h


/-- C13: the classifier equals the fixed table on the table names, gives two
table names the same kind exactly when they are aliases of each other, and
gives WINDOW_AGGREGATE to every other string; so it never returns
`ExpressionType::INVALID`, and `TransformFuncCall` never fails with
`Unknown/unsupported window function` unless a collaborator throws that very
error. -/
theorem WindowToExpressionType_fixed_table :
    (∀ entry ∈ windowKindTable, WindowToExpressionType entry.1 = entry.2) ∧
    (∀ a ∈ windowTableNames, ∀ b ∈ windowTableNames,
      (WindowToExpressionType a = WindowToExpressionType b ↔ areAliases a b = true)) ∧
    (∀ fun_name, fun_name ∉ windowTableNames →
      WindowToExpressionType fun_name = ExpressionType.WINDOW_AGGREGATE) ∧
    (∀ fun_name, WindowToExpressionType fun_name ≠ ExpressionType.INVALID) ∧
    (∀ (Node Expr Order : Type) (T : Transformer Node Expr Order) (root : PGFuncCall Node),
      (∀ node, T.TransformExpression node ≠ Except.error unknownWindowFunction) →
      (∀ list, T.TransformExpressionList list ≠ Except.error unknownWindowFunction) →
      (∀ list, T.TransformOrderBy list ≠ Except.error unknownWindowFunction) →
      TransformFuncCall T root ≠ Except.error unknownWindowFunction) := by
  refine ⟨WindowToExpressionType_table, WindowToExpressionType_aliases,
    WindowToExpressionType_fallback, WindowToExpressionType_ne_INVALID, ?_⟩
  intro Node Expr Order T root hE hL hO h
  rcases TransformFuncCall_error_cases T root _ h with
    ⟨node, h1⟩ | ⟨list, h1⟩ | ⟨list, h1⟩ | ⟨msg, h1⟩ | ⟨condition, h1⟩ | h1 | h1 | h1
  · exact hE node h1
  · exact hL list h1
  · exact hO list h1
  · exact ThrownError.noConfusion h1
  · exact ThrownError.noConfusion h1
  · exact absurd h1 (by decide)
  · exact absurd h1 (by decide)
  · exact absurd h1 (by decide)

/-- Witness for C13: `sum` is outside of the table and classified as
WINDOW_AGGREGATE, and a window call of an unheard-of function against the
sample transformer does not end in `Unknown/unsupported window function`. -/
theorem WindowToExpressionType_fixed_table_witness :
    WindowToExpressionType "sum" = ExpressionType.WINDOW_AGGREGATE ∧
    TransformFuncCall (sampleTransformer true sampleWindows)
        (windowCall "No_Such_Function" (some [some "x"]) (overNamed "w_c")) ≠
      Except.error unknownWindowFunction :=
  ⟨WindowToExpressionType_fixed_table.2.2.1 "sum" (by decide),
    WindowToExpressionType_fixed_table.2.2.2.2 String String (Option String)
      (sampleTransformer true sampleWindows)
      (windowCall "No_Such_Function" (some [some "x"]) (overNamed "w_c"))
      (by
        intro node h
        simp only [sampleTransformer] at h
        split_ifs at h
        exact absurd (Except.error.inj h) (by decide))
      (by
        intro list h
        cases list <;> simp [sampleTransformer, sampleList] at h)
      (by
        intro list h
        cases list <;> simp [sampleTransformer, sampleList] at h)⟩


/-! ## Theorems: the arguments of a window call -/

/-- The assertion on the kind passes in a build with assertions only for
WINDOW_LEAD and WINDOW_LAG. -/
theorem D_ASSERT_lead_or_lag {text : String} (assertions : Bool) (win_fun_type : ExpressionType)
    (u : Unit)
    (h : D_ASSERT assertions
      (win_fun_type == ExpressionType.WINDOW_LEAD || win_fun_type == ExpressionType.WINDOW_LAG)
      text = Except.ok u) :
    assertions = true →
      win_fun_type = ExpressionType.WINDOW_LEAD ∨ win_fun_type = ExpressionType.WINDOW_LAG := by
  intro ha
  unfold D_ASSERT at h
  subst ha
  by_cases hc : (win_fun_type == ExpressionType.WINDOW_LEAD ||
      win_fun_type == ExpressionType.WINDOW_LAG) = true
  · simpa using hc
  · simp [hc] at h

/-- What the argument distribution writes for a kind other than
WINDOW_AGGREGATE: at most the first argument as child, the second as offset
expression, the third as default expression; in a build with assertions a
second argument is only let through for WINDOW_LEAD and WINDOW_LAG. -/
theorem distributeWindowArguments_ok_other {Expr Order : Type} (assertions : Bool)
    (win_fun_type : ExpressionType) (function_list : List (Option Expr))
    (expr result : WindowExpression Expr Order)
    (hk : win_fun_type ≠ ExpressionType.WINDOW_AGGREGATE)
    (h : distributeWindowArguments assertions win_fun_type function_list expr = Except.ok result) :
    result.children = expr.children ++ function_list.take 1 ∧
    result.offset_expr =
      (if 1 < function_list.length then function_list.getD 1 none else expr.offset_expr) ∧
    result.default_expr =
      (if 2 < function_list.length then function_list.getD 2 none else expr.default_expr) ∧
    (assertions = true → 1 < function_list.length →
      win_fun_type = ExpressionType.WINDOW_LEAD ∨ win_fun_type = ExpressionType.WINDOW_LAG) := by
  unfold distributeWindowArguments at h
  simp only [hk, if_false] at h
  generalize hw : (if function_list.isEmpty = true then expr
    else { expr with children := expr.children ++ [function_list.getD 0 none] }) = withChild at h
  have ew : withChild.children = expr.children ++ function_list.take 1 ∧
      withChild.offset_expr = expr.offset_expr ∧ withChild.default_expr = expr.default_expr := by
    rw [← hw]
    cases function_list with
    | nil => simp
    | cons a rest => simp
  cases hoff : takeOffsetArgument assertions win_fun_type function_list withChild with
  | error err => simp [hoff] at h
  | ok withOffset =>
    simp only [hoff] at h
    cases hdef : takeDefaultArgument assertions win_fun_type function_list withOffset with
    | error err => simp [hdef] at h
    | ok withDefault =>
      simp only [hdef] at h
      cases hd : D_ASSERT assertions (decide (function_list.length ≤ 3))
          "function_list.size() <= 3" with
      | error err => simp [hd] at h
      | ok u =>
        simp only [hd] at h
        have h2 := Except.ok.inj h
        subst h2
        have e1 : withOffset.children = withChild.children ∧
            withOffset.default_expr = withChild.default_expr ∧
            withOffset.offset_expr =
              (if 1 < function_list.length then function_list.getD 1 none
               else withChild.offset_expr) ∧
            (assertions = true → 1 < function_list.length →
              win_fun_type = ExpressionType.WINDOW_LEAD ∨
                win_fun_type = ExpressionType.WINDOW_LAG) := by
          unfold takeOffsetArgument at hoff
          by_cases hlen : 1 < function_list.length
          · simp only [hlen, if_true] at hoff
            cases hd1 : D_ASSERT assertions
                (win_fun_type == ExpressionType.WINDOW_LEAD ||
                  win_fun_type == ExpressionType.WINDOW_LAG)
                "win_fun_type == ExpressionType::WINDOW_LEAD || win_fun_type == ExpressionType::WINDOW_LAG" with
            | error err => simp [hd1] at hoff
            | ok u1 =>
              simp only [hd1] at hoff
              have h3 := Except.ok.inj hoff
              subst h3
              exact ⟨rfl, rfl, by simp [hlen],
                fun ha _ => D_ASSERT_lead_or_lag assertions win_fun_type u1 hd1 ha⟩
          · simp only [hlen, if_false] at hoff
            have h3 := Except.ok.inj hoff
            subst h3
            exact ⟨rfl, rfl, by simp [hlen], fun _ hl => absurd hl hlen⟩
        have e2 : withDefault.children = withOffset.children ∧
            withDefault.offset_expr = withOffset.offset_expr ∧
            withDefault.default_expr =
              (if 2 < function_list.length then function_list.getD 2 none
               else withOffset.default_expr) := by
          unfold takeDefaultArgument at hdef
          by_cases hlen : 2 < function_list.length
          · simp only [hlen, if_true] at hdef
            cases hd1 : D_ASSERT assertions
                (win_fun_type == ExpressionType.WINDOW_LEAD ||
                  win_fun_type == ExpressionType.WINDOW_LAG)
                "win_fun_type == ExpressionType::WINDOW_LEAD || win_fun_type == ExpressionType::WINDOW_LAG" with
            | error err => simp [hd1] at hdef
            | ok u1 =>
              simp only [hd1] at hdef
              have h3 := Except.ok.inj hdef
              subst h3
              exact ⟨rfl, rfl, by simp [hlen]⟩
          · simp only [hlen, if_false] at hdef
            have h3 := Except.ok.inj hdef
            subst h3
            exact ⟨rfl, rfl, by simp [hlen]⟩
        refine ⟨?_, ?_, ?_, e1.2.2.2⟩
        · rw [e2.1, e1.1, ew.1]
        · rw [e2.2.1, e1.2.2.1, ew.2.1]
        · rw [e2.2.2, e1.2.1, ew.2.2]

/-- What the argument distribution writes for WINDOW_AGGREGATE: every argument
as a child, and nothing else. -/
theorem distributeWindowArguments_ok_aggregate {Expr Order : Type} (assertions : Bool)
    (function_list : List (Option Expr)) (expr result : WindowExpression Expr Order)
    (h : distributeWindowArguments assertions ExpressionType.WINDOW_AGGREGATE function_list expr =
      Except.ok result) :
    result.children = expr.children ++ function_list ∧
    result.offset_expr = expr.offset_expr ∧ result.default_expr = expr.default_expr := by
  unfold distributeWindowArguments at h
  simp only [if_true] at h
  have h2 := Except.ok.inj h
  subst h2
  exact ⟨rfl, rfl, rfl⟩

/-- The argument block of the window path, when it succeeds: either the
argument list is null and nothing is written, or `TransformExpressionList`
reported success and its elements were distributed. -/
theorem transformWindowArguments_ok_cases {Node Expr Order : Type} (T : Transformer Node Expr Order)
    (win_fun_type : ExpressionType) (args : PGList Node)
    (expr result : WindowExpression Expr Order)
    (h : transformWindowArguments T win_fun_type args expr = Except.ok result) :
    (args = none ∧ result = expr) ∨
    (args ≠ none ∧ ∃ function_list,
      T.TransformExpressionList args = Except.ok (true, function_list) ∧
      distributeWindowArguments T.assertions win_fun_type function_list expr = Except.ok result) := by
  unfold transformWindowArguments at h
  cases args with
  | none =>
    simp only [Option.isSome_none, Bool.false_eq_true, if_false] at h
    exact Or.inl ⟨rfl, (Except.ok.inj h).symm⟩
  | some cells =>
    simp only [Option.isSome_some, if_true] at h
    cases hl : T.TransformExpressionList (some cells) with
    | error err => simp [hl] at h
    | ok pair =>
      obtain ⟨res, function_list⟩ := pair
      simp only [hl] at h
      cases res with
      | false => simp at h
      | true =>
        simp only [Bool.not_true, Bool.false_eq_true, if_false] at h
        exact Or.inr ⟨by simp, function_list, rfl, h⟩


/-- C14: for a window call that succeeds and whose argument list transforms to
`L` (a null argument list counting as the empty `L`): for WINDOW_AGGREGATE the
children are `L` and the offset and default expressions are absent; for
WINDOW_LEAD and WINDOW_LAG three arguments give the first as only child, the
second as offset expression and the third as default expression, two arguments
leave the default expression absent, and one argument leaves both absent. -/
theorem TransformFuncCall_window_arguments {Node Expr Order : Type}
    (T : Transformer Node Expr Order) (root : PGFuncCall Node) (over : PGWindowDef Node)
    (result : ParsedExpression Expr Order) (L : List (Option Expr))
    (hover : root.over = some over)
    (h : TransformFuncCall T root = Except.ok result)
    (hL : (root.args = none ∧ L = []) ∨
      (root.args ≠ none ∧ ∃ flag, T.TransformExpressionList root.args = Except.ok (flag, L))) :
    ∃ w, result = ParsedExpression.Window w ∧
      w.type = WindowToExpressionType (T.Lower (qualifiedName T root).2) ∧
      (w.type = ExpressionType.WINDOW_AGGREGATE →
        w.children = L ∧ w.offset_expr = none ∧ w.default_expr = none) ∧
      (w.type = ExpressionType.WINDOW_LEAD ∨ w.type = ExpressionType.WINDOW_LAG →
        (∀ a b c, L = [a, b, c] →
          w.children = [a] ∧ w.offset_expr = b ∧ w.default_expr = c) ∧
        (∀ a b, L = [a, b] → w.children = [a] ∧ w.offset_expr = b ∧ w.default_expr = none) ∧
        (∀ a, L = [a] → w.children = [a] ∧ w.offset_expr = none ∧ w.default_expr = none)) := by
  have horder := agg_order_eq_none_of_ok T root result h
  rw [TransformFuncCall_of_over T root over horder hover] at h
  obtain ⟨withArguments, _, _, w, hres, ha, _, _, htype, _, _, hchildren, hoffset, hdefault, _⟩ :=
    transformWindowCall_ok_fields T root _ _ over result h
  refine ⟨w, hres, htype, ?_, ?_⟩
  · intro hk
    rw [htype] at hk
    rw [hk] at ha
    rcases transformWindowArguments_ok_cases T _ _ _ _ ha with ⟨hnone, hw⟩ | ⟨hsome, fl, hl, hdist⟩
    · rcases hL with ⟨_, hLnil⟩ | ⟨hne, _⟩
      · rw [hchildren, hoffset, hdefault, hw, hLnil]
        exact ⟨rfl, rfl, rfl⟩
      · exact absurd hnone hne
    · rcases hL with ⟨hnone, _⟩ | ⟨_, flag, hl2⟩
      · exact absurd hnone hsome
      · rw [hl] at hl2
        have hfl : fl = L := by
          have := Except.ok.inj hl2
          exact (Prod.mk.inj this).2
        subst hfl
        obtain ⟨h1, h2, h3⟩ := distributeWindowArguments_ok_aggregate _ _ _ _ hdist
        rw [hchildren, hoffset, hdefault, h1, h2, h3]
        simp [WindowExpression.make]
  · intro hk
    rw [htype] at hk
    have hne : WindowToExpressionType (T.Lower (qualifiedName T root).2) ≠
        ExpressionType.WINDOW_AGGREGATE := by
      rcases hk with hk | hk <;> rw [hk] <;> decide
    have key : ∀ cs, L = cs → 0 < cs.length →
        w.children = cs.take 1 ∧
        w.offset_expr = (if 1 < cs.length then cs.getD 1 none else none) ∧
        w.default_expr = (if 2 < cs.length then cs.getD 2 none else none) := by
      intro cs hcs hpos
      subst hcs
      rcases transformWindowArguments_ok_cases T _ _ _ _ ha with ⟨hnone, _⟩ | ⟨hsome, fl, hl, hdist⟩
      · rcases hL with ⟨_, hLnil⟩ | ⟨hne2, _⟩
        · subst hLnil
          simp at hpos
        · exact absurd hnone hne2
      · rcases hL with ⟨hnone, _⟩ | ⟨_, flag, hl2⟩
        · exact absurd hnone hsome
        · rw [hl] at hl2
          have hfl : fl = L := by
            have := Except.ok.inj hl2
            exact (Prod.mk.inj this).2
          subst hfl
          obtain ⟨h1, h2, h3, _⟩ := distributeWindowArguments_ok_other _ _ _ _ _ hne hdist
          rw [hchildren, hoffset, hdefault, h1, h2, h3]
          simp [WindowExpression.make]
    refine ⟨?_, ?_, ?_⟩
    · intro a b c habc
      have := key [a, b, c] habc (by simp)
      simpa using this
    · intro a b hab
      have := key [a, b] hab (by simp)
      simpa using this
    · intro a ha1
      have := key [a] ha1 (by simp)
      simpa using this

/-- Witness for C14: `LEAD(x, n, d) OVER w_c` and `SUM(x, y) OVER w_c`. -/
theorem TransformFuncCall_window_arguments_witness :
    (∃ w, TransformFuncCall (sampleTransformer true sampleWindows)
        (windowCall "LEAD" (some [some "x", some "n", some "d"]) (overNamed "w_c")) =
          Except.ok (ParsedExpression.Window w) ∧
      w.type = ExpressionType.WINDOW_LEAD ∧
      w.children = [some "x"] ∧ w.offset_expr = some "n" ∧ w.default_expr = some "d") ∧
    (∃ w, TransformFuncCall (sampleTransformer true sampleWindows)
        (windowCall "SUM" (some [some "x", some "y"]) (overNamed "w_c")) =
          Except.ok (ParsedExpression.Window w) ∧
      w.type = ExpressionType.WINDOW_AGGREGATE ∧
      w.children = [some "x", some "y"] ∧ w.offset_expr = none ∧ w.default_expr = none) := by
  constructor
  · have hev : TransformFuncCall (sampleTransformer true sampleWindows)
        (windowCall "LEAD" (some [some "x", some "n", some "d"]) (overNamed "w_c")) =
        Except.ok (ParsedExpression.Window leadOverC) := rfl
    obtain ⟨w, hres, htype, _, hlead⟩ := TransformFuncCall_window_arguments
      (sampleTransformer true sampleWindows)
      (windowCall "LEAD" (some [some "x", some "n", some "d"]) (overNamed "w_c"))
      (overNamed "w_c") _ [some "x", some "n", some "d"] rfl hev
      (Or.inr ⟨by simp [windowCall], true, rfl⟩)
    have hk : w.type = ExpressionType.WINDOW_LEAD := by rw [htype]; rfl
    exact ⟨w, by rw [hev, hres], hk, (hlead (Or.inl hk)).1 _ _ _ rfl⟩
  · have hev : TransformFuncCall (sampleTransformer true sampleWindows)
        (windowCall "SUM" (some [some "x", some "y"]) (overNamed "w_c")) =
        Except.ok (ParsedExpression.Window sumTwoOverC) := rfl
    obtain ⟨w, hres, htype, hagg, _⟩ := TransformFuncCall_window_arguments
      (sampleTransformer true sampleWindows)
      (windowCall "SUM" (some [some "x", some "y"]) (overNamed "w_c"))
      (overNamed "w_c") _ [some "x", some "y"] rfl hev
      (Or.inr ⟨by simp [windowCall], true, rfl⟩)
    have hk : w.type = ExpressionType.WINDOW_AGGREGATE := by rw [htype]; rfl
    exact ⟨w, by rw [hev, hres], hk, hagg hk⟩


/-- In a build with assertions, a window expression that is returned has an
offset or default expression only if its kind is WINDOW_LEAD or WINDOW_LAG. -/
theorem TransformFuncCall_offsets_lead_lag_of_assertions {Node Expr Order : Type}
    (T : Transformer Node Expr Order) (root : PGFuncCall Node) (w : WindowExpression Expr Order)
    (hassert : T.assertions = true)
    (h : TransformFuncCall T root = Except.ok (ParsedExpression.Window w))
    (hpresent : w.offset_expr ≠ none ∨ w.default_expr ≠ none) :
    w.type = ExpressionType.WINDOW_LEAD ∨ w.type = ExpressionType.WINDOW_LAG := by
  have horder := agg_order_eq_none_of_ok T root _ h
  cases hover : root.over with
  | none =>
    rw [TransformFuncCall_of_no_over T root horder hover] at h
    exact absurd h (transformPlainCall_ne_window T root _ _ w)
  | some over =>
    rw [TransformFuncCall_of_over T root over horder hover] at h
    obtain ⟨withArguments, _, _, w2, hres, ha, _, _, htype, _, _, _, hoffset, hdefault, _⟩ :=
      transformWindowCall_ok_fields T root _ _ over _ h
    injection hres with hres
    subst hres
    rw [hoffset, hdefault] at hpresent
    rw [htype]
    rcases transformWindowArguments_ok_cases T _ _ _ _ ha with ⟨_, hw⟩ | ⟨_, fl, _, hdist⟩
    · rw [hw] at hpresent
      simp [WindowExpression.make] at hpresent
    · by_cases hk : WindowToExpressionType (T.Lower (qualifiedName T root).2) =
          ExpressionType.WINDOW_AGGREGATE
      · rw [hk] at hdist
        obtain ⟨_, h2, h3⟩ := distributeWindowArguments_ok_aggregate _ _ _ _ hdist
        rw [h2, h3] at hpresent
        simp [WindowExpression.make] at hpresent
      · obtain ⟨_, h2, h3, hlead⟩ := distributeWindowArguments_ok_other _ _ _ _ _ hk hdist
        rw [h2, h3] at hpresent
        have hlen : 1 < fl.length := by
          by_contra hc
          have hc2 : ¬ 2 < fl.length := by omega
          simp [hc, hc2, WindowExpression.make] at hpresent
        exact hlead hassert hlen

/-- C16 (the source does not guarantee this): in a build without assertions
`RANK(x, y) OVER w_c` returns a WINDOW_RANK expression whose offset expression
is `y`, and `ROW_NUMBER(x, y, z, u) OVER w_c` a WINDOW_ROW_NUMBER expression
with offset expression `y` and default expression `z`; in a build with
assertions both calls stop at the assertion of line 151. -/
theorem TransformFuncCall_offset_outside_lead_lag :
    TransformFuncCall (sampleTransformer false sampleWindows)
        (windowCall "RANK" (some [some "x", some "y"]) (overNamed "w_c")) =
      Except.ok (ParsedExpression.Window rankTwoOverC) ∧
    rankTwoOverC.type = ExpressionType.WINDOW_RANK ∧ rankTwoOverC.offset_expr = some "y" ∧
    TransformFuncCall (sampleTransformer false sampleWindows)
        (windowCall "ROW_NUMBER" (some [some "x", some "y", some "z", some "u"])
          (overNamed "w_c")) =
      Except.ok (ParsedExpression.Window rowNumberFourOverC) ∧
    rowNumberFourOverC.type = ExpressionType.WINDOW_ROW_NUMBER ∧
    rowNumberFourOverC.offset_expr = some "y" ∧ rowNumberFourOverC.default_expr = some "z" ∧
    TransformFuncCall (sampleTransformer true sampleWindows)
        (windowCall "RANK" (some [some "x", some "y"]) (overNamed "w_c")) =
      Except.error (ThrownError.AssertionFailure
        "win_fun_type == ExpressionType::WINDOW_LEAD || win_fun_type == ExpressionType::WINDOW_LAG") ∧
    TransformFuncCall (sampleTransformer true sampleWindows)
        (windowCall "ROW_NUMBER" (some [some "x", some "y", some "z", some "u"])
          (overNamed "w_c")) =
      Except.error (ThrownError.AssertionFailure
        "win_fun_type == ExpressionType::WINDOW_LEAD || win_fun_type == ExpressionType::WINDOW_LAG") :=
  ⟨rfl, rfl, rfl, rfl, rfl, rfl, rfl, rfl, rfl⟩


/-! ## Theorems: what a result does not depend on -/

/-- C17: when the OVER specification carries a name found in the named-window
table with declaration `D`, two window calls that differ only in the other
fields of the OVER specification (partition clause, order clause, frame
options, offsets, reference name) have the same outcome, and in a window
expression that is returned the boundaries and boundary offsets are decoded
from `D` and the partitions and orders are the transforms of the clauses of
`D`, or of the target of the reference name of `D` when it has one. -/
theorem TransformFuncCall_named_over_fields_ignored {Node Expr Order : Type}
    (T : Transformer Node Expr Order) (root : PGFuncCall Node)
    (over1 over2 D : PGWindowDef Node) (name : String)
    (hname1 : over1.name = some name) (hname2 : over2.name = some name)
    (hD : T.window_clauses (T.Lower name) = some D) :
    TransformFuncCall T { root with over := some over1 } =
      TransformFuncCall T { root with over := some over2 } ∧
    ∀ w, TransformFuncCall T { root with over := some over1 } =
        Except.ok (ParsedExpression.Window w) →
      w.start = decodeStart T.masks D.frameOptions WindowBoundary.INVALID ∧
      w.end_ = decodeEnd T.masks D.frameOptions WindowBoundary.INVALID ∧
      T.TransformExpression D.startOffset = Except.ok w.start_expr ∧
      T.TransformExpression D.endOffset = Except.ok w.end_expr ∧
      ∃ window_ref, resolveWindowRef T D = Except.ok window_ref ∧
        (∃ flag, T.TransformExpressionList window_ref.partitionClause =
          Except.ok (flag, w.partitions)) ∧
        (∃ flag, T.TransformOrderBy window_ref.orderClause = Except.ok (flag, w.orders)) := by
  have hs1 : resolveWindowSpec T over1 = Except.ok D := by
    simp [resolveWindowSpec, hname1, findWindowClause, hD]
  have hs2 : resolveWindowSpec T over2 = Except.ok D := by
    simp [resolveWindowSpec, hname2, findWindowClause, hD]
  constructor
  · simp only [TransformFuncCall, qualifiedName, transformWindowCall, hs1, hs2]
  · intro w h
    have horder := agg_order_eq_none_of_ok T _ _ h
    rw [TransformFuncCall_of_over T _ over1 horder rfl] at h
    obtain ⟨_, window_spec, window_ref, w2, hres, _, hs, hr, _, _, _, _, _, _, hp, ho, hstart,
      hend, hse, hee, _⟩ := transformWindowCall_ok_fields T _ _ _ over1 _ h
    injection hres with hres
    subst hres
    rw [hs1] at hs
    have hsD := Except.ok.inj hs
    subst hsD
    exact ⟨hstart, hend, hse, hee, window_ref, hr, hp, ho⟩

/-- Witness for C17: `SUM(x) OVER W_A` gives the same window expression
whether the OVER specification is bare or carries clauses, a rejected frame, a
failing offset and an undeclared reference name of its own. -/
theorem TransformFuncCall_named_over_fields_ignored_witness :
    TransformFuncCall (sampleTransformer true sampleWindows)
        { windowCall "SUM" (some [some "x"]) (overNamed "W_A") with over := some overNamedBusy } =
      Except.ok (ParsedExpression.Window sumOverA) :=
  ((TransformFuncCall_named_over_fields_ignored (sampleTransformer true sampleWindows)
    (windowCall "SUM" (some [some "x"]) (overNamed "W_A")) (overNamed "W_A") overNamedBusy
    sampleWindowA "W_A" rfl rfl rfl).1.symm.trans
    (rfl : TransformFuncCall (sampleTransformer true sampleWindows)
      { windowCall "SUM" (some [some "x"]) (overNamed "W_A") with
        over := some (overNamed "W_A") } = Except.ok (ParsedExpression.Window sumOverA)))

/-- C18: for a call with an OVER clause the outcome of `TransformFuncCall` is
the same whatever the FILTER clause of the node is; the filter is neither
transformed nor stored. -/
theorem TransformFuncCall_window_ignores_filter {Node Expr Order : Type}
    (T : Transformer Node Expr Order) (root : PGFuncCall Node) (agg_filter : Option Node)
    (hover : root.over ≠ none) :
    TransformFuncCall T { root with agg_filter := agg_filter } = TransformFuncCall T root := by
  cases ho : root.over with
  | none => exact absurd ho hover
  | some over =>
    simp only [TransformFuncCall, qualifiedName, transformWindowCall, ho]

/-- Witness for C18: `SUM(x) OVER W_A` with a FILTER that cannot be transformed
still gives the window expression of `SUM(x) OVER W_A`. -/
theorem TransformFuncCall_window_ignores_filter_witness :
    TransformFuncCall (sampleTransformer true sampleWindows)
        { windowCall "SUM" (some [some "x"]) (overNamed "W_A") with agg_filter := some "bad" } =
      Except.ok (ParsedExpression.Window sumOverA) ∧
    (sampleTransformer true sampleWindows).TransformExpression (some "bad") =
      Except.error (ThrownError.Other "not implemented") :=
  ⟨(TransformFuncCall_window_ignores_filter (sampleTransformer true sampleWindows)
      (windowCall "SUM" (some [some "x"]) (overNamed "W_A")) (some "bad")
      (by simp [windowCall])).trans rfl, rfl⟩

/-- The FILTER step succeeds when there is no FILTER or the FILTER
transforms. -/
theorem transformFilter_ok_of_transforms {Node Expr Order : Type} (T : Transformer Node Expr Order)
    (agg_filter : Option Node)
    (h : agg_filter = none ∨ ∃ f, T.TransformExpression agg_filter = Except.ok f) :
    ∃ f, transformFilter T agg_filter = Except.ok f := by
  unfold transformFilter
  rcases h with h | ⟨f, h⟩
  · exact ⟨none, by simp [h]⟩
  · by_cases hs : agg_filter.isSome = true
    · exact ⟨f, by simp [hs, h]⟩
    · exact ⟨none, by simp [hs]⟩

/-- For the names `if` and `ifnull`, `buildCall` looks at the children only. -/
theorem buildCall_sugar_eq {Node Expr Order : Type} (root1 root2 : PGFuncCall Node)
    (schema1 schema2 lowercase_name : String) (children : List (Option Expr))
    (filter1 filter2 : Option Expr)
    (h : lowercase_name = "if" ∨ lowercase_name = "ifnull") :
    (buildCall root1 schema1 lowercase_name children filter1 :
      Except ThrownError (ParsedExpression Expr Order)) =
      buildCall root2 schema2 lowercase_name children filter2 := by
  rcases h with h | h
  · subst h
    simp [buildCall]
  · subst h
    simp [buildCall]

/-- C19: without OVER clause and aggregate ORDER BY, two calls whose names both
lowercase to `if`, or both to `ifnull`, and which have the same arguments, have
the same outcome whatever their schema qualifier, DISTINCT flag, source
location and FILTER clause are, provided each FILTER transforms. This covers
every number of arguments, so in particular `if` with three and `ifnull` with
two. -/
theorem TransformFuncCall_sugar_depends_on_arguments_only {Node Expr Order : Type}
    (T : Transformer Node Expr Order) (root1 root2 : PGFuncCall Node)
    (horder1 : root1.agg_order = none) (hover1 : root1.over = none)
    (horder2 : root2.agg_order = none) (hover2 : root2.over = none)
    (hname : (T.Lower (qualifiedName T root1).2 = "if" ∧ T.Lower (qualifiedName T root2).2 = "if") ∨
      (T.Lower (qualifiedName T root1).2 = "ifnull" ∧
        T.Lower (qualifiedName T root2).2 = "ifnull"))
    (hargs : root1.args = root2.args)
    (hfilter1 : root1.agg_filter = none ∨
      ∃ f, T.TransformExpression root1.agg_filter = Except.ok f)
    (hfilter2 : root2.agg_filter = none ∨
      ∃ f, T.TransformExpression root2.agg_filter = Except.ok f) :
    TransformFuncCall T root1 = TransformFuncCall T root2 := by
  rw [TransformFuncCall_of_no_over T root1 horder1 hover1,
    TransformFuncCall_of_no_over T root2 horder2 hover2]
  unfold transformPlainCall
  rw [hargs]
  cases hc : transformChildren T (root2.args.getD []) with
  | error err => rfl
  | ok children =>
    obtain ⟨f1, hf1⟩ := transformFilter_ok_of_transforms T root1.agg_filter hfilter1
    obtain ⟨f2, hf2⟩ := transformFilter_ok_of_transforms T root2.agg_filter hfilter2
    simp only [hf1, hf2]
    rcases hname with ⟨h1, h2⟩ | ⟨h1, h2⟩
    · rw [h1, h2]
      have hr : renameCountStar "if" children = "if" := by simp [renameCountStar]
      rw [hr]
      exact buildCall_sugar_eq root1 root2 _ _ "if" children f1 f2 (Or.inl rfl)
    · rw [h1, h2]
      have hr : renameCountStar "ifnull" children = "ifnull" := by simp [renameCountStar]
      rw [hr]
      exact buildCall_sugar_eq root1 root2 _ _ "ifnull" children f1 f2 (Or.inr rfl)

/-- Witness for C19: `IF(c, t, e)` and
`s.If(DISTINCT c, t, e) FILTER (keep)` at another location give the same
case expression. -/
theorem TransformFuncCall_sugar_depends_on_arguments_only_witness :
    TransformFuncCall (sampleTransformer true noWindows)
        { funcname := ("s", ["If"]), args := some [some "c", some "t", some "e"],
          agg_order := none, agg_filter := some "keep", agg_distinct := true, over := none,
          location := 99 } =
      Except.ok (ParsedExpression.Case
        { case_checks := [{ when_expr := some "c", then_expr := some "t" }],
          else_expr := some "e" }) :=
  (TransformFuncCall_sugar_depends_on_arguments_only (sampleTransformer true noWindows)
    { funcname := ("s", ["If"]), args := some [some "c", some "t", some "e"],
      agg_order := none, agg_filter := some "keep", agg_distinct := true, over := none,
      location := 99 }
    (plainCall "IF" (some [some "c", some "t", some "e"]))
    rfl rfl rfl rfl (Or.inl ⟨rfl, rfl⟩) rfl (Or.inr ⟨some "keep", rfl⟩) (Or.inl rfl)).trans rfl


/-! ## Theorems: unreachable decoding branches -/

/-- The start cascade cannot produce UNBOUNDED_FOLLOWING when the
start-unbounded-following bit is not set. -/
theorem decodeStart_ne_unbounded_following (m : FrameOptionMasks) (frameOptions : Nat)
    (current : WindowBoundary)
    (hbit : hasFrameOption frameOptions m.FRAMEOPTION_START_UNBOUNDED_FOLLOWING = false)
    (hcurrent : current ≠ WindowBoundary.UNBOUNDED_FOLLOWING) :
    decodeStart m frameOptions current ≠ WindowBoundary.UNBOUNDED_FOLLOWING := by
  unfold decodeStart
  rw [hbit]
  split_ifs <;> first | contradiction | exact hcurrent | decide

/-- The end cascade cannot produce UNBOUNDED_PRECEDING when the
end-unbounded-preceding bit is not set. -/
theorem decodeEnd_ne_unbounded_preceding (m : FrameOptionMasks) (frameOptions : Nat)
    (current : WindowBoundary)
    (hbit : hasFrameOption frameOptions m.FRAMEOPTION_END_UNBOUNDED_PRECEDING = false)
    (hcurrent : current ≠ WindowBoundary.UNBOUNDED_PRECEDING) :
    decodeEnd m frameOptions current ≠ WindowBoundary.UNBOUNDED_PRECEDING := by
  unfold decodeEnd
  rw [hbit]
  split_ifs <;> first | contradiction | exact hcurrent | decide

/-- The first check of `TransformWindowFrame` passes exactly when neither the
end-unbounded-preceding nor the start-unbounded-following bit is set. -/
theorem nonsensicalFrame_eq_false_iff (m : FrameOptionMasks) (frameOptions : Nat) :
    nonsensicalFrame m frameOptions = false ↔
      hasFrameOption frameOptions m.FRAMEOPTION_END_UNBOUNDED_PRECEDING = false ∧
      hasFrameOption frameOptions m.FRAMEOPTION_START_UNBOUNDED_FOLLOWING = false := by
  simp [nonsensicalFrame]

/-- C20: whenever `TransformWindowFrame` succeeds, neither the
start-unbounded-following bit nor the end-unbounded-preceding bit is set, so
the branches of lines 65-66 and 79-80 were not taken: a start boundary that was
not UNBOUNDED_FOLLOWING before is not UNBOUNDED_FOLLOWING after, and an end
boundary that was not UNBOUNDED_PRECEDING before is not UNBOUNDED_PRECEDING
after. On a freshly constructed window expression, and so in every window
expression `TransformFuncCall` returns, the start boundary is not
UNBOUNDED_FOLLOWING and the end boundary is not UNBOUNDED_PRECEDING. -/
theorem TransformWindowFrame_rejected_boundaries_unreachable {Node Expr Order : Type}
    (T : Transformer Node Expr Order) :
    (∀ window_spec expr result, TransformWindowFrame T window_spec expr = Except.ok result →
      hasFrameOption window_spec.frameOptions T.masks.FRAMEOPTION_START_UNBOUNDED_FOLLOWING = false ∧
      hasFrameOption window_spec.frameOptions T.masks.FRAMEOPTION_END_UNBOUNDED_PRECEDING = false ∧
      (expr.start ≠ WindowBoundary.UNBOUNDED_FOLLOWING →
        result.start ≠ WindowBoundary.UNBOUNDED_FOLLOWING) ∧
      (expr.end_ ≠ WindowBoundary.UNBOUNDED_PRECEDING →
        result.end_ ≠ WindowBoundary.UNBOUNDED_PRECEDING)) ∧
    (∀ window_spec type schema function_name result,
      TransformWindowFrame T window_spec (WindowExpression.make type schema function_name) =
        Except.ok result →
      result.start ≠ WindowBoundary.UNBOUNDED_FOLLOWING ∧
      result.end_ ≠ WindowBoundary.UNBOUNDED_PRECEDING) ∧
    (∀ root w, TransformFuncCall T root = Except.ok (ParsedExpression.Window w) →
      w.start ≠ WindowBoundary.UNBOUNDED_FOLLOWING ∧
      w.end_ ≠ WindowBoundary.UNBOUNDED_PRECEDING) := by
  have general : ∀ (window_spec : PGWindowDef Node) (expr result : WindowExpression Expr Order),
      TransformWindowFrame T window_spec expr = Except.ok result →
      hasFrameOption window_spec.frameOptions T.masks.FRAMEOPTION_START_UNBOUNDED_FOLLOWING = false ∧
      hasFrameOption window_spec.frameOptions T.masks.FRAMEOPTION_END_UNBOUNDED_PRECEDING = false ∧
      (expr.start ≠ WindowBoundary.UNBOUNDED_FOLLOWING →
        result.start ≠ WindowBoundary.UNBOUNDED_FOLLOWING) ∧
      (expr.end_ ≠ WindowBoundary.UNBOUNDED_PRECEDING →
        result.end_ ≠ WindowBoundary.UNBOUNDED_PRECEDING) := by
    intro window_spec expr result h
    obtain ⟨s, e, _, _, hform, hnon, _, _⟩ :=
      TransformWindowFrame_ok_form T window_spec expr result h
    obtain ⟨hend, hstart⟩ := (nonsensicalFrame_eq_false_iff _ _).1 hnon
    refine ⟨hstart, hend, ?_, ?_⟩
    · intro hc
      rw [hform]
      exact decodeStart_ne_unbounded_following _ _ _ hstart hc
    · intro hc
      rw [hform]
      exact decodeEnd_ne_unbounded_preceding _ _ _ hend hc
  refine ⟨general, ?_, ?_⟩
  · intro window_spec type schema function_name result h
    obtain ⟨_, _, h1, h2⟩ := general window_spec _ result h
    exact ⟨h1 (by simp [WindowExpression.make]), h2 (by simp [WindowExpression.make])⟩
  · intro root w h
    have horder := agg_order_eq_none_of_ok T root _ h
    cases hover : root.over with
    | none =>
      rw [TransformFuncCall_of_no_over T root horder hover] at h
      exact absurd h (transformPlainCall_ne_window T root _ _ w)
    | some over =>
      rw [TransformFuncCall_of_over T root over horder hover] at h
      obtain ⟨_, window_spec, _, w2, hres, _, _, _, _, _, _, _, _, _, _, _, hstart, hend, _, _,
        hnon⟩ := transformWindowCall_ok_fields T root _ _ over _ h
      injection hres with hres
      subst hres
      obtain ⟨hbe, hbs⟩ := (nonsensicalFrame_eq_false_iff _ _).1 hnon
      rw [hstart, hend]
      exact ⟨decodeStart_ne_unbounded_following _ _ _ hbs (by decide),
        decodeEnd_ne_unbounded_preceding _ _ _ hbe (by decide)⟩

/-- Witness for C20: the frame `ROWS BETWEEN 1 PRECEDING AND CURRENT ROW` is
decoded on a fresh window expression, and the window expression of
`SUM(x) OVER W_A` has neither rejected boundary. -/
theorem TransformWindowFrame_rejected_boundaries_unreachable_witness :
    (∀ result, TransformWindowFrame (sampleTransformer true noWindows)
        (frameOnly 0x60d (some "1") none) freshWindow = Except.ok result →
      result.start ≠ WindowBoundary.UNBOUNDED_FOLLOWING ∧
      result.end_ ≠ WindowBoundary.UNBOUNDED_PRECEDING) ∧
    TransformWindowFrame (sampleTransformer true noWindows)
        (frameOnly 0x60d (some "1") none) freshWindow =
      Except.ok { freshWindow with
        start := WindowBoundary.EXPR_PRECEDING, end_ := WindowBoundary.CURRENT_ROW_ROWS,
        start_expr := some "1", end_expr := none } ∧
    sumOverA.start ≠ WindowBoundary.UNBOUNDED_FOLLOWING ∧
    sumOverA.end_ ≠ WindowBoundary.UNBOUNDED_PRECEDING :=
  ⟨fun result h =>
      (TransformWindowFrame_rejected_boundaries_unreachable
        (sampleTransformer true noWindows)).2.1 (frameOnly 0x60d (some "1") none)
        ExpressionType.WINDOW_AGGREGATE "" "sum" result h,
    rfl,
    (TransformWindowFrame_rejected_boundaries_unreachable
      (sampleTransformer true sampleWindows)).2.2
      (windowCall "SUM" (some [some "x"]) (overNamed "W_A")) sumOverA rfl⟩

/-! ## Theorems: `TransformSQLValueFunction` -/

/-- The names `SQLValueOpToString` returns are none of `count`, `if` and
`ifnull`. -/
theorem SQLValueOpToString_not_sugar (op : PGSQLValueFunctionOp) (fname : String)
    (h : SQLValueOpToString op = Except.ok fname) :
    fname ≠ "count" ∧ fname ≠ "if" ∧ fname ≠ "ifnull" := by
  cases op <;> simp only [SQLValueOpToString] at h <;>
    first
    | (have h2 := Except.ok.inj h
       subst h2
       decide)
    | exact Except.noConfusion h

/-- C12 as stated fails: for `CURRENT_DATE` the function expression of
`TransformSQLValueFunction` has the schema `DEFAULT_SCHEMA`, while
`TransformFuncCall` gives the unqualified zero-argument call `current_date()`
the schema `INVALID_SCHEMA`, and the two constants differ. -/
theorem TransformSQLValueFunction_schema_differs :
    TransformSQLValueFunction (sampleTransformer true noWindows)
        (some { op := PGSQLValueFunctionOp.PG_SVFOP_CURRENT_DATE }) =
      Except.ok (some (ParsedExpression.Function
        { schema := "main", function_name := "current_date", children := [], filter := none,
          distinct := false, query_location := none })) ∧
    TransformFuncCall (sampleTransformer true noWindows) (plainCall "current_date" none) =
      Except.ok (ParsedExpression.Function
        { schema := "", function_name := "current_date", children := [], filter := none,
          distinct := false, query_location := some 7 }) ∧
    (sampleTransformer true noWindows).INVALID_SCHEMA = "" ∧
    (sampleTransformer true noWindows).DEFAULT_SCHEMA = "main" ∧
    ("main" : String) ≠ "" :=
  ⟨rfl, rfl, rfl, rfl, by decide⟩

/-- C12, amended: for a non-null node with a known operation code,
`TransformSQLValueFunction` returns the function expression with the mapped
name, no arguments, no filter and the distinct flag false, which are the name,
arguments, filter and flag `TransformFuncCall` gives an unqualified
zero-argument call of the mapped name without DISTINCT, FILTER, OVER and
aggregate ORDER BY (lowercasing leaving the mapped name as it is); the schema
is `DEFAULT_SCHEMA` in the first and `INVALID_SCHEMA` in the second, and only
the second carries a source location. -/
theorem TransformSQLValueFunction_matches_call_up_to_schema {Node Expr Order : Type}
    (T : Transformer Node Expr Order) (node : PGSQLValueFunction) (fname : String)
    (root : PGFuncCall Node)
    (hop : SQLValueOpToString node.op = Except.ok fname)
    (hlower : T.Lower fname = fname)
    (hpath : root.funcname = (fname, []))
    (hargs : root.args = none ∨ root.args = some [])
    (hdistinct : root.agg_distinct = false) (hfilter : root.agg_filter = none)
    (hover : root.over = none) (horder : root.agg_order = none) :
    TransformSQLValueFunction T (some node) =
      Except.ok (some (ParsedExpression.Function
        { schema := T.DEFAULT_SCHEMA, function_name := fname, children := [], filter := none,
          distinct := false, query_location := none })) ∧
    TransformFuncCall T root =
      Except.ok (ParsedExpression.Function
        { schema := T.INVALID_SCHEMA, function_name := fname, children := [], filter := none,
          distinct := false, query_location := some root.location }) := by
  obtain ⟨hcount, hif, hifnull⟩ := SQLValueOpToString_not_sugar node.op fname hop
  constructor
  · simp [TransformSQLValueFunction, hop, FunctionExpression.make]
  · have hq := qualifiedName_of_one T root fname hpath
    have hchildren : List.Forall₂ (fun node child => T.TransformExpression node = Except.ok child)
        (root.args.getD []) ([] : List (Option Expr)) := by
      rcases hargs with h | h <;> simp [h]
    rw [TransformFuncCall_of_no_over T root horder hover,
      transformPlainCall_eq T root _ _ [] none hchildren (fun _ => rfl)
        (fun node hn => by rw [hfilter] at hn; exact absurd hn (by simp)),
      hq]
    simp [hlower, renameCountStar, buildCall, hcount, hif, hifnull, FunctionExpression.make,
      hdistinct]

/-- Witness for the amended C12: `CURRENT_USER` against the call
`current_user()`. -/
theorem TransformSQLValueFunction_matches_call_up_to_schema_witness :
    TransformSQLValueFunction (sampleTransformer true noWindows)
        (some { op := PGSQLValueFunctionOp.PG_SVFOP_CURRENT_USER }) =
      Except.ok (some (ParsedExpression.Function
        { schema := "main", function_name := "current_user", children := [], filter := none,
          distinct := false, query_location := none })) ∧
    TransformFuncCall (sampleTransformer true noWindows) (plainCall "current_user" none) =
      Except.ok (ParsedExpression.Function
        { schema := "", function_name := "current_user", children := [], filter := none,
          distinct := false, query_location := some 7 }) :=
  TransformSQLValueFunction_matches_call_up_to_schema (sampleTransformer true noWindows)
    { op := PGSQLValueFunctionOp.PG_SVFOP_CURRENT_USER } "current_user"
    (plainCall "current_user" none) rfl rfl rfl (Or.inl rfl) rfl rfl rfl rfl

end duckdb
